import Mathlib

/-!
# Universal-Translator: settings validation and panel geometry

A shallow embedding of the settings validators (`validators.js`,
`background.js`), the geometry utilities (`ui-utils.js`), the drag and resize
controllers (`drag-handler.js`, `resize-handler.js`) and the stateful slice of
the panel controller (`bubble-ui.js`).

Conventions of the embedding
* A JavaScript number is a `JSNum`: an exact rational, NaN or one of the two
  infinities.  Rounding of doubles and the sign of zero are not modelled.
* A JavaScript value is a `JSVal`; an object is its list of own properties,
  looked up by key (first match), prototypes and accessors are not modelled.
* DOM metrics (`offsetLeft`, `clientX`, `innerWidth`, ...) are finite numbers,
  taken in `ℚ`.  The element's box is the record of its `left`, `top`, `width`
  and `height`: a write to `style.left` is read back by `offsetLeft`.
* The bubble carries the border `1px solid` of `applyTheme` and no `box-sizing`,
  so `offsetWidth` and `offsetHeight` measure its border box.  The controllers
  record the width and height they apply; `btnFullClick`, which writes a
  measured size back to `style.width` and `style.height`, records the border
  box that results.
-/

namespace UniversalTranslator

/-! ## JavaScript values -/

/-- A JavaScript number: NaN, the infinities, or a finite value. -/
inductive JSNum where
  | nan
  | negInf
  | fin (q : ℚ)
  | posInf
  deriving DecidableEq

namespace JSNum

/-- The comparison `a <= b` of two numbers; false as soon as one is NaN. -/
def le : JSNum → JSNum → Bool
  | nan, _ => false
  | _, nan => false
  | negInf, _ => true
  | _, posInf => true
  | fin a, fin b => decide (a ≤ b)
  | fin _, negInf => false
  | posInf, negInf => false
  | posInf, fin _ => false

/-- The comparison `a >= b`. -/
def ge (a b : JSNum) : Bool := le b a

end JSNum

/-- A JavaScript value.  An object is the list of its own properties. -/
inductive JSVal where
  | undefined
  | null
  | bool (b : Bool)
  | num (n : JSNum)
  | str (s : String)
  | obj (props : List (String × JSVal))

/-- An object: its own properties, the first entry of a key being the live one. -/
abbrev Obj := List (String × JSVal)

namespace Obj

/-- Own-property lookup: `none` when the object has no property `k`. -/
def get : Obj → String → Option JSVal
  | [], _ => none
  | (k', v) :: rest, k => if k' = k then some v else get rest k

/-- The assignment `o[k] = v`: overwrite the property in place or add it. -/
def set : Obj → String → JSVal → Obj
  | [], k, v => [(k, v)]
  | (k', v') :: rest, k, v => if k' = k then (k, v) :: rest else (k', v') :: set rest k v

/-- The test `k in o` restricted to own properties. -/
def has (o : Obj) (k : String) : Prop := o.get k ≠ none

/-- The property read `o[k]`: `undefined` when the property is missing. -/
def read (o : Obj) (k : String) : JSVal := (o.get k).getD JSVal.undefined

end Obj

namespace JSVal

/-- The operator `typeof`. -/
def typeOf : JSVal → String
  | undefined => "undefined"
  | null => "object"
  | bool _ => "boolean"
  | num _ => "number"
  | str _ => "string"
  | obj _ => "object"

/-- The conversion ToBoolean. -/
def truthy : JSVal → Bool
  | undefined => false
  | null => false
  | bool b => b
  | num JSNum.nan => false
  | num (JSNum.fin q) => decide (q ≠ 0)
  | num _ => true
  | str s => decide (s ≠ "")
  | obj _ => true

/-- The property read `v.k` on a value that passed the object guard. -/
def prop : JSVal → String → JSVal
  | obj ps, k => Obj.read ps k
  | _, _ => undefined

/-- The test `v === s` against a string literal. -/
def isStr : JSVal → String → Bool
  | str t, s => decide (t = s)
  | _, _ => false

/-- The `length` of a string value; zero for the values without one. -/
def strLength : JSVal → Nat
  | str t => t.length
  | _ => 0

/-- The operator `a || b`. -/
def or (a b : JSVal) : JSVal := if a.truthy then a else b

end JSVal

/-- The conversions to number of a string and of an object, which belong to the
language runtime and are left open. -/
structure Runtime where
  stringToNumber : String → JSNum
  objectToNumber : Obj → JSNum

/-- The conversion ToNumber. -/
def Runtime.toNumber (rt : Runtime) : JSVal → JSNum
  | JSVal.undefined => JSNum.nan
  | JSVal.null => JSNum.fin 0
  | JSVal.bool true => JSNum.fin 1
  | JSVal.bool false => JSNum.fin 0
  | JSVal.num n => n
  | JSVal.str s => rt.stringToNumber s
  | JSVal.obj ps => rt.objectToNumber ps

/-- The test `typeof v === "number" && v >= lo`, the bound already a number. -/
def isNumGe (v : JSVal) (lo : JSNum) : Bool :=
  decide (v.typeOf = "number") &&
    (match v with
     | JSVal.num n => JSNum.ge n lo
     | _ => false)

/-- The test `typeof v === "number" && v <= hi`, the bound already a number. -/
def isNumLe (v : JSVal) (hi : JSNum) : Bool :=
  decide (v.typeOf = "number") &&
    (match v with
     | JSVal.num n => JSNum.le n hi
     | _ => false)

/-- The test `typeof v === "string" && v.length > 0`. -/
def isNonEmptyStr (v : JSVal) : Bool :=
  decide (v.typeOf = "string") && decide (v.strLength > 0)

/-! ## constants.js -/

def MIN_WIDTH : ℚ := 200
def MIN_HEIGHT : ℚ := 120
def Z_INDEX : ℕ := 999999
def Z_INDEX_FULLSCREEN : ℕ := 2147483647

/-- The record `window.UI_DEFAULTS`. -/
def UI_DEFAULTS : Obj :=
  [("theme", JSVal.str "dark"),
   ("fontSize", JSVal.num (JSNum.fin 14)),
   ("width", JSVal.num (JSNum.fin 320)),
   ("height", JSVal.num (JSNum.fin 180)),
   ("left", JSVal.num (JSNum.fin 80)),
   ("top", JSVal.num (JSNum.fin 80)),
   ("safeMargin", JSVal.num (JSNum.fin 10)),
   ("safeTop", JSVal.num (JSNum.fin 40)),
   ("snapDistance", JSVal.num (JSNum.fin 24)),
   ("minFont", JSVal.num (JSNum.fin 12)),
   ("maxFont", JSVal.num (JSNum.fin 20)),
   ("fontStep", JSVal.num (JSNum.fin 2))]

/-! ## background.js -/

/-- The bound `DEFAULT_SETTINGS.minFont`. -/
def DEFAULT_SETTINGS_minFont : JSNum := JSNum.fin 12

/-- The bound `DEFAULT_SETTINGS.maxFont`. -/
def DEFAULT_SETTINGS_maxFont : JSNum := JSNum.fin 20

/-- The function `validateStoredSettings` of `background.js`: keep the fields
that pass their check, drop everything else. -/
def validateStoredSettings (raw : JSVal) : Obj :=
  if !raw.truthy || raw.typeOf ≠ "object" then
    []
  else
    let result : Obj := []
    let result :=
      if (raw.prop "theme").isStr "dark" || (raw.prop "theme").isStr "light" then
        result.set "theme" (raw.prop "theme")
      else result
    let result :=
      if isNumGe (raw.prop "fontSize") DEFAULT_SETTINGS_minFont &&
          isNumLe (raw.prop "fontSize") DEFAULT_SETTINGS_maxFont then
        result.set "fontSize" (raw.prop "fontSize")
      else result
    let result :=
      if isNumGe (raw.prop "width") (JSNum.fin 200) then
        result.set "width" (raw.prop "width")
      else result
    let result :=
      if isNumGe (raw.prop "height") (JSNum.fin 120) then
        result.set "height" (raw.prop "height")
      else result
    let result :=
      if isNumGe (raw.prop "left") (JSNum.fin 0) then
        result.set "left" (raw.prop "left")
      else result
    let result :=
      if isNumGe (raw.prop "top") (JSNum.fin 0) then
        result.set "top" (raw.prop "top")
      else result
    let result :=
      if isNonEmptyStr (raw.prop "targetLang") then
        result.set "targetLang" (raw.prop "targetLang")
      else result
    result

/-! ## validators.js -/

/-- The bound `window.MIN_WIDTH || 200`. -/
def minWidth : ℚ := if MIN_WIDTH ≠ 0 then MIN_WIDTH else 200

/-- The bound `window.MIN_HEIGHT || 120`. -/
def minHeight : ℚ := if MIN_HEIGHT ≠ 0 then MIN_HEIGHT else 120

/-- The function `validateSettings` of `validators.js`: each field other than
`targetLang` is the incoming value when it passes its check and the entry of
`defaults` otherwise. -/
def validateSettings (rt : Runtime) (raw : JSVal) (defaults : Obj) : Obj :=
  if !raw.truthy || raw.typeOf ≠ "object" then
    defaults
  else
    let result : Obj := []
    let result :=
      if (raw.prop "theme").isStr "dark" || (raw.prop "theme").isStr "light" then
        result.set "theme" (raw.prop "theme")
      else result.set "theme" (defaults.read "theme")
    let result :=
      if isNumGe (raw.prop "fontSize") (rt.toNumber (defaults.read "minFont")) &&
          isNumLe (raw.prop "fontSize") (rt.toNumber (defaults.read "maxFont")) then
        result.set "fontSize" (raw.prop "fontSize")
      else result.set "fontSize" (defaults.read "fontSize")
    let result :=
      if isNumGe (raw.prop "width") (JSNum.fin minWidth) then
        result.set "width" (raw.prop "width")
      else result.set "width" (defaults.read "width")
    let result :=
      if isNumGe (raw.prop "height") (JSNum.fin minHeight) then
        result.set "height" (raw.prop "height")
      else result.set "height" (defaults.read "height")
    let result :=
      if isNumGe (raw.prop "left") (JSNum.fin 0) then
        result.set "left" (raw.prop "left")
      else result.set "left" (defaults.read "left")
    let result :=
      if isNumGe (raw.prop "top") (JSNum.fin 0) then
        result.set "top" (raw.prop "top")
      else result.set "top" (defaults.read "top")
    let result :=
      if isNonEmptyStr (raw.prop "targetLang") then
        result.set "targetLang" (raw.prop "targetLang")
      else result
    result

/-- The function `validateSetting` of `validators.js`. -/
def validateSetting (rt : Runtime) (key : String) (value : JSVal) (defaults : Obj) : JSVal :=
  let temp : Obj := [(key, value)]
  let validated := validateSettings rt (JSVal.obj temp) defaults
  match validated.read key with
  | JSVal.undefined => defaults.read key
  | v => v

/-! ## ui-utils.js -/

/-- The function `clamp`: `Math.max(min, Math.min(value, max))`. -/
def clamp (value min max : ℚ) : ℚ := Max.max min (Min.min value max)

/-- The window as the geometry code reads it. -/
structure Viewport where
  innerWidth : ℚ
  innerHeight : ℚ

/-- The box of the bubble element. -/
structure Elem where
  offsetLeft : ℚ
  offsetTop : ℚ
  offsetWidth : ℚ
  offsetHeight : ℚ
  deriving DecidableEq

/-- The configuration handed to the controllers. -/
structure Config where
  safeMargin : ℚ
  safeTop : ℚ
  snapDistance : ℚ

/-- The entries `safeMargin`, `safeTop` and `snapDistance` of `UI_DEFAULTS`, which
`bubble-ui.js` hands to both controllers. -/
def uiConfig : Config := { safeMargin := 10, safeTop := 40, snapDistance := 24 }

/-- A position `{left, top}`. -/
structure Position where
  left : ℚ
  top : ℚ
  deriving DecidableEq

/-- A size `{width, height}`. -/
structure Size where
  width : ℚ
  height : ℚ
  deriving DecidableEq

/-- The function `snapToEdges`: the moved element and the returned `{left, top}`. -/
def snapToEdges (win : Viewport) (elem : Elem) (cfg : Config) : Elem × Position :=
  let leftPos := elem.offsetLeft
  let topPos := elem.offsetTop
  let width := elem.offsetWidth
  let height := elem.offsetHeight
  let left := leftPos
  let top := topPos
  let left := if leftPos < cfg.snapDistance then cfg.safeMargin else left
  let left :=
    if win.innerWidth - (leftPos + width) < cfg.snapDistance then
      win.innerWidth - width - cfg.safeMargin
    else left
  let top := if topPos - cfg.safeTop < cfg.snapDistance then cfg.safeTop else top
  let top :=
    if win.innerHeight - (topPos + height) < cfg.snapDistance then
      win.innerHeight - height - cfg.safeMargin
    else top
  ({ elem with offsetLeft := left, offsetTop := top }, { left := left, top := top })

/-! ## The page the controllers act on -/

/-- A mouse event: the pressed button, whether `e.target.closest("button, select")`
finds an element, and the pointer coordinates. -/
structure MouseEvent where
  button : ℕ
  targetInControl : Bool
  clientX : ℚ
  clientY : ℚ

/-- The part of the document the controllers write: the bubble's box and the
cursor of the body. -/
structure Page where
  bubble : Elem
  bodyCursor : String
  deriving DecidableEq

/-! ## drag-handler.js -/

/-- The variables of one `DragHandler` and whether its listeners are attached. -/
structure DragState where
  isDragging : Bool
  dragOffsetX : ℚ
  dragOffsetY : ℚ
  listening : Bool
  deriving DecidableEq

namespace DragHandler

/-- The state right after `DragHandler(...)` has run. -/
def init : DragState :=
  { isDragging := false, dragOffsetX := 0, dragOffsetY := 0, listening := true }

/-- The listener `onMouseDown` of the header.  The bubble is positioned `fixed`,
so the `left` and `top` of its bounding rectangle are those of its box. -/
def onMouseDown (s : DragState) (pg : Page) (e : MouseEvent) : DragState × Page :=
  if e.button ≠ 0 then (s, pg)
  else if e.targetInControl then (s, pg)
  else
    let rectLeft := pg.bubble.offsetLeft
    let rectTop := pg.bubble.offsetTop
    ({ s with
        isDragging := true
        dragOffsetX := e.clientX - rectLeft
        dragOffsetY := e.clientY - rectTop },
     { pg with bodyCursor := "move" })

/-- The listener `onMouseMove` of the document. -/
def onMouseMove (cfg : Config) (win : Viewport) (s : DragState) (pg : Page)
    (e : MouseEvent) : Page :=
  if !s.isDragging then pg
  else
    let newLeft := e.clientX - s.dragOffsetX
    let newTop := e.clientY - s.dragOffsetY
    let newLeft :=
      clamp newLeft cfg.safeMargin (win.innerWidth - pg.bubble.offsetWidth - cfg.safeMargin)
    let newTop :=
      clamp newTop cfg.safeTop (win.innerHeight - pg.bubble.offsetHeight - cfg.safeMargin)
    { pg with bubble := { pg.bubble with offsetLeft := newLeft, offsetTop := newTop } }

/-- The listener `onMouseUp` of the document; the third component is the
argument of the call of `onPositionChange`, when it is called. -/
def onMouseUp (cfg : Config) (win : Viewport) (hasCallback : Bool) (s : DragState)
    (pg : Page) : DragState × Page × Option Position :=
  if !s.isDragging then (s, pg, none)
  else
    let s := { s with isDragging := false }
    let pg := { pg with bodyCursor := "" }
    let snapped := snapToEdges win pg.bubble cfg
    let pg := { pg with bubble := snapped.1 }
    if hasCallback then
      (s, pg, some { left := snapped.2.left, top := snapped.2.top })
    else (s, pg, none)

/-- The returned function `destroy`. -/
def destroy (s : DragState) : DragState :=
  { s with listening := false, isDragging := false }

end DragHandler

/-! ## resize-handler.js -/

/-- The variables of one `ResizeHandler` and whether its listeners are attached. -/
structure ResizeState where
  isResizing : Bool
  startX : ℚ
  startY : ℚ
  startWidth : ℚ
  startHeight : ℚ
  listening : Bool
  deriving DecidableEq

namespace ResizeHandler

/-- The state right after `ResizeHandler(...)` has run. -/
def init : ResizeState :=
  { isResizing := false, startX := 0, startY := 0, startWidth := 0, startHeight := 0,
    listening := true }

/-- The listener `onMouseDown` of the resize handle. -/
def onMouseDown (s : ResizeState) (pg : Page) (e : MouseEvent) : ResizeState × Page :=
  ({ s with
      isResizing := true
      startX := e.clientX
      startY := e.clientY
      startWidth := pg.bubble.offsetWidth
      startHeight := pg.bubble.offsetHeight },
   { pg with bodyCursor := "nwse-resize" })

/-- The listener `onMouseMove` of the document. -/
def onMouseMove (cfg : Config) (win : Viewport) (s : ResizeState) (pg : Page)
    (e : MouseEvent) : Page :=
  if !s.isResizing then pg
  else
    let dx := e.clientX - s.startX
    let dy := e.clientY - s.startY
    let newWidth :=
      clamp (s.startWidth + dx) minWidth (win.innerWidth - pg.bubble.offsetLeft - cfg.safeMargin)
    let newHeight :=
      clamp (s.startHeight + dy) minHeight
        (win.innerHeight - pg.bubble.offsetTop - cfg.safeMargin)
    { pg with bubble := { pg.bubble with offsetWidth := newWidth, offsetHeight := newHeight } }

/-- The listener `onMouseUp` of the document; the third component is the
argument of the call of `onSizeChange`, when it is called. -/
def onMouseUp (hasCallback : Bool) (s : ResizeState) (pg : Page) :
    ResizeState × Page × Option Size :=
  if !s.isResizing then (s, pg, none)
  else
    let s := { s with isResizing := false }
    let pg := { pg with bodyCursor := "" }
    if hasCallback then
      (s, pg, some { width := pg.bubble.offsetWidth, height := pg.bubble.offsetHeight })
    else (s, pg, none)

/-- The returned function `destroy`. -/
def destroy (s : ResizeState) : ResizeState :=
  { s with listening := false, isResizing := false }

end ResizeHandler

/-! ## bubble-ui.js -/

/-- The finite number a value is, when it is one. -/
def JSVal.toFinite? : JSVal → Option ℚ
  | JSVal.num (JSNum.fin q) => some q
  | _ => none

/-- The operator `a ?? b`. -/
def JSVal.nullish (a b : JSVal) : JSVal :=
  match a with
  | JSVal.undefined => b
  | JSVal.null => b
  | _ => a

/-- A numeric entry of `UI_DEFAULTS`. -/
def uiNum (k : String) : ℚ := ((UI_DEFAULTS.read k).toFinite?).getD 0

/-- The snapshot `prevGeometry`. -/
structure Geometry where
  width : ℚ
  height : ℚ
  left : ℚ
  top : ℚ
  deriving DecidableEq

/-- The variables of one visible panel: the closure of `showTranslatorBubble`
together with the styles it writes. -/
structure Panel where
  stored : Obj
  theme : JSVal
  fontSize : ℚ
  isFullScreen : Bool
  prevGeometry : Option Geometry
  page : Page
  zIndex : ℕ
  resizerHidden : Bool
  langValue : JSVal
  drag : DragState
  resize : ResizeState

/-- A panel together with the background process: the value kept under
`STORAGE_KEY` and the `data` of every `saveSettings` message, oldest first. -/
structure World where
  panel : Panel
  storage : JSVal
  sent : List Obj

/-- The record `{ ...o, k: v }` for a numeric `v`. -/
def Obj.withNum (o : Obj) (k : String) (v : ℚ) : Obj := o.set k (JSVal.num (JSNum.fin v))

/-- The helper `saveSettings` followed by the `saveSettings` handler of the
background: the validated record replaces the stored one. -/
def saveSettings (w : World) (settings : Obj) : World :=
  { w with
    sent := w.sent ++ [settings]
    storage := JSVal.obj (validateStoredSettings (JSVal.obj settings)) }

/-- The helper `loadSettings` after the `getSettings` handler of the background. -/
def loadSettings (rt : Runtime) (storage : JSVal) : Obj :=
  let res := validateStoredSettings (JSVal.or storage (JSVal.obj []))
  validateSettings rt (JSVal.or (JSVal.obj res) (JSVal.obj [])) UI_DEFAULTS

/-- The first call of `showTranslatorBubble`, no bubble being in the document.
The result is `none` when a stored number is not finite. -/
def showTranslatorBubble (rt : Runtime) (win : Viewport) (uiLang : String)
    (storage : JSVal) : Option World := do
  let stored := loadSettings rt storage
  let currentLang := JSVal.or (stored.read "targetLang") (JSVal.str uiLang)
  let theme := JSVal.or (stored.read "theme") (UI_DEFAULTS.read "theme")
  let fontSize ← (JSVal.or (stored.read "fontSize") (UI_DEFAULTS.read "fontSize")).toFinite?
  let startW ← (JSVal.or (stored.read "width") (UI_DEFAULTS.read "width")).toFinite?
  let startH ← (JSVal.or (stored.read "height") (UI_DEFAULTS.read "height")).toFinite?
  let storedLeft ← (JSVal.nullish (stored.read "left") (UI_DEFAULTS.read "left")).toFinite?
  let storedTop ← (JSVal.nullish (stored.read "top") (UI_DEFAULTS.read "top")).toFinite?
  let startL :=
    clamp storedLeft (uiNum "safeMargin") (win.innerWidth - startW - uiNum "safeMargin")
  let startT :=
    clamp storedTop (uiNum "safeTop") (win.innerHeight - startH - uiNum "safeMargin")
  pure
    { panel :=
        { stored := stored
          theme := theme
          fontSize := fontSize
          isFullScreen := false
          prevGeometry := none
          page :=
            { bubble :=
                { offsetLeft := startL, offsetTop := startT, offsetWidth := startW,
                  offsetHeight := startH }
              bodyCursor := "" }
          zIndex := Z_INDEX
          resizerHidden := false
          langValue := currentLang
          drag := DragHandler.init
          resize := ResizeHandler.init }
      storage := storage
      sent := [] }

/-- The callback given to `DragHandler`. -/
def onPositionChange (w : World) (pos : Position) : World :=
  saveSettings w ((w.panel.stored.withNum "left" pos.left).withNum "top" pos.top)

/-- The callback given to `ResizeHandler`. -/
def onSizeChange (w : World) (size : Size) : World :=
  saveSettings w ((w.panel.stored.withNum "width" size.width).withNum "height" size.height)

/-- The `change` listener of the language selector, the re-translation apart. -/
def langSelectChange (w : World) (newLang : String) : World :=
  let w := { w with panel := { w.panel with langValue := JSVal.str newLang } }
  saveSettings w (w.panel.stored.set "targetLang" (JSVal.str newLang))

/-- The handler `btnPlus.onclick`. -/
def btnPlusClick (w : World) : World :=
  if w.panel.fontSize < uiNum "maxFont" then
    let fontSize := w.panel.fontSize + uiNum "fontStep"
    let w := { w with panel := { w.panel with fontSize := fontSize } }
    saveSettings w (w.panel.stored.withNum "fontSize" fontSize)
  else w

/-- The handler `btnMinus.onclick`. -/
def btnMinusClick (w : World) : World :=
  if w.panel.fontSize > uiNum "minFont" then
    let fontSize := w.panel.fontSize - uiNum "fontStep"
    let w := { w with panel := { w.panel with fontSize := fontSize } }
    saveSettings w (w.panel.stored.withNum "fontSize" fontSize)
  else w

/-- The handler `btnTheme.onclick`. -/
def btnThemeClick (w : World) : World :=
  let theme := if w.panel.theme.isStr "dark" then JSVal.str "light" else JSVal.str "dark"
  let w := { w with panel := { w.panel with theme := theme } }
  saveSettings w (w.panel.stored.set "theme" theme)

/-- The width of the border that `applyTheme` gives the bubble, `1px solid` in
either theme. -/
def themeBorderWidth : ℚ := 1

/-- What `offsetWidth` (or `offsetHeight`) reads once `size` is written to
`style.width` (or `style.height`): the bubble has the default content-box
sizing and no padding, so the border of both sides is added. -/
def offsetOfStyle (size : ℚ) : ℚ := size + 2 * themeBorderWidth

/-- The handler `btnFull.onclick`; `none` is the TypeError of destructuring a
null `prevGeometry`.  The snapshot is the measured border box; on exit it is
written to `style.width` and `style.height`, which size the content box, and on
entry these are `100vw` and `100vh`. -/
def btnFullClick (win : Viewport) (p : Panel) : Option Panel :=
  if !p.isFullScreen then
    let prevGeometry : Geometry :=
      { width := p.page.bubble.offsetWidth
        height := p.page.bubble.offsetHeight
        left := p.page.bubble.offsetLeft
        top := p.page.bubble.offsetTop }
    some
      { p with
        prevGeometry := some prevGeometry
        page :=
          { p.page with
            bubble :=
              { offsetTop := 0, offsetLeft := 0,
                offsetWidth := offsetOfStyle win.innerWidth,
                offsetHeight := offsetOfStyle win.innerHeight } }
        zIndex := Z_INDEX_FULLSCREEN
        resizerHidden := true
        isFullScreen := true }
  else
    match p.prevGeometry with
    | none => none
    | some g =>
      some
        { p with
          page :=
            { p.page with
              bubble :=
                { offsetTop := g.top, offsetLeft := g.left,
                  offsetWidth := offsetOfStyle g.width,
                  offsetHeight := offsetOfStyle g.height } }
          zIndex := Z_INDEX
          resizerHidden := false
          isFullScreen := false }

/-- What the user and the browser can do to a visible panel. -/
inductive Event where
  | headerMouseDown (e : MouseEvent)
  | resizerMouseDown (e : MouseEvent)
  | mouseMove (e : MouseEvent)
  | mouseUp
  | langChange (newLang : String)
  | clickPlus
  | clickMinus
  | clickTheme
  | clickFull

/-- One event delivered to the listeners that are attached, in the order in
which they were registered (drag before resize).  A resize handle whose
`display` is `none` receives no press. -/
def step (win : Viewport) (w : World) : Event → Option World
  | Event.headerMouseDown e =>
    if w.panel.drag.listening then
      let r := DragHandler.onMouseDown w.panel.drag w.panel.page e
      some { w with panel := { w.panel with drag := r.1, page := r.2 } }
    else some w
  | Event.resizerMouseDown e =>
    if w.panel.resize.listening && !w.panel.resizerHidden then
      let r := ResizeHandler.onMouseDown w.panel.resize w.panel.page e
      some { w with panel := { w.panel with resize := r.1, page := r.2 } }
    else some w
  | Event.mouseMove e =>
    let pg := w.panel.page
    let pg :=
      if w.panel.drag.listening then DragHandler.onMouseMove uiConfig win w.panel.drag pg e
      else pg
    let pg :=
      if w.panel.resize.listening then
        ResizeHandler.onMouseMove uiConfig win w.panel.resize pg e
      else pg
    some { w with panel := { w.panel with page := pg } }
  | Event.mouseUp =>
    let w :=
      if w.panel.drag.listening then
        let r := DragHandler.onMouseUp uiConfig win true w.panel.drag w.panel.page
        let w := { w with panel := { w.panel with drag := r.1, page := r.2.1 } }
        match r.2.2 with
        | some pos => onPositionChange w pos
        | none => w
      else w
    let w :=
      if w.panel.resize.listening then
        let r := ResizeHandler.onMouseUp true w.panel.resize w.panel.page
        let w := { w with panel := { w.panel with resize := r.1, page := r.2.1 } }
        match r.2.2 with
        | some size => onSizeChange w size
        | none => w
      else w
    some w
  | Event.langChange newLang => some (langSelectChange w newLang)
  | Event.clickPlus => some (btnPlusClick w)
  | Event.clickMinus => some (btnMinusClick w)
  | Event.clickTheme => some (btnThemeClick w)
  | Event.clickFull =>
    match btnFullClick win w.panel with
    | some p => some { w with panel := p }
    | none => none

/-- A sequence of events, stopped by the first uncaught error. -/
def run (win : Viewport) : World → List Event → Option World
  | w, [] => some w
  | w, ev :: rest =>
    match step win w ev with
    | some w' => run win w' rest
    | none => none

/-! ## Events of one controller and the closing of the panel -/

/-- What the pointer can do to a controller: a press on its handle, a move or a
release anywhere in the document. -/
inductive PointerEvent where
  | press (e : MouseEvent)
  | move (e : MouseEvent)
  | release

/-- One pointer event given to the listeners of a `DragHandler`, as long as they
are attached: the new variables, the page, and the argument of the call of
`onPositionChange` when there is one. -/
def DragHandler.deliver (cfg : Config) (win : Viewport) (hasCallback : Bool) (s : DragState)
    (pg : Page) : PointerEvent → DragState × Page × Option Position
  | PointerEvent.press e =>
    if s.listening then
      ((DragHandler.onMouseDown s pg e).1, (DragHandler.onMouseDown s pg e).2, none)
    else (s, pg, none)
  | PointerEvent.move e =>
    if s.listening then (s, DragHandler.onMouseMove cfg win s pg e, none) else (s, pg, none)
  | PointerEvent.release =>
    if s.listening then DragHandler.onMouseUp cfg win hasCallback s pg else (s, pg, none)

/-- One pointer event given to the listeners of a `ResizeHandler`, as long as they
are attached. -/
def ResizeHandler.deliver (cfg : Config) (win : Viewport) (hasCallback : Bool)
    (s : ResizeState) (pg : Page) : PointerEvent → ResizeState × Page × Option Size
  | PointerEvent.press e =>
    if s.listening then
      ((ResizeHandler.onMouseDown s pg e).1, (ResizeHandler.onMouseDown s pg e).2, none)
    else (s, pg, none)
  | PointerEvent.move e =>
    if s.listening then (s, ResizeHandler.onMouseMove cfg win s pg e, none) else (s, pg, none)
  | PointerEvent.release =>
    if s.listening then ResizeHandler.onMouseUp hasCallback s pg else (s, pg, none)

/-- A panel together with the document: whether the bubble element is attached. -/
structure Tab where
  panel : Panel
  bubbleInDocument : Bool

/-- The function `closeBubble`: every function of `cleanupFns` in turn (the
`destroy` of the drag controller, then that of the resize controller), then
`bubble.remove()`. -/
def closeBubble (t : Tab) : Tab :=
  let panel := { t.panel with drag := DragHandler.destroy t.panel.drag }
  let panel := { panel with resize := ResizeHandler.destroy panel.resize }
  { panel := panel, bubbleInDocument := false }

/-! ## Concrete inputs -/

/-- A runtime whose conversions of strings and objects give NaN. -/
def rt0 : Runtime :=
  { stringToNumber := fun _ => JSNum.nan, objectToNumber := fun _ => JSNum.nan }

/-- A viewport of 1000 by 800. -/
def win0 : Viewport := { innerWidth := 1000, innerHeight := 800 }

/-- A press of the primary button at `(x, y)`, outside every control. -/
def pressAt (x y : ℚ) : MouseEvent :=
  { button := 0, targetInControl := false, clientX := x, clientY := y }

/-- A page whose bubble has the given box. -/
def pageOf (left top width height : ℚ) : Page :=
  { bubble := { offsetLeft := left, offsetTop := top, offsetWidth := width,
                offsetHeight := height }
    bodyCursor := "" }

/-- A panel showing the default settings in its default place: the styled 320
by 180 with the border measures 322 by 182. -/
def panel0 : Panel :=
  { stored := UI_DEFAULTS
    theme := JSVal.str "dark"
    fontSize := 14
    isFullScreen := false
    prevGeometry := none
    page := pageOf 80 80 322 182
    zIndex := Z_INDEX
    resizerHidden := false
    langValue := JSVal.str "en"
    drag := DragHandler.init
    resize := ResizeHandler.init }

/-- A drag of the default panel from `(80, 80)` to `(400, 300)`. -/
def dragGesture : List Event :=
  [Event.headerMouseDown (pressAt 100 100), Event.mouseMove (pressAt 420 320), Event.mouseUp]

/-- A resize of the dragged panel from 320 by 180 to 420 by 230. -/
def resizeGesture : List Event :=
  [Event.resizerMouseDown (pressAt 720 480), Event.mouseMove (pressAt 820 530), Event.mouseUp]

/-- The stored settings `{ fontSize: 19 }`. -/
def storedFont19 : JSVal := JSVal.obj [("fontSize", JSVal.num (JSNum.fin 19))]

/-! ## The checks of the specification -/

/-- The fields of a settings record. -/
def recognizedFields : List String :=
  ["theme", "fontSize", "width", "height", "left", "top", "targetLang"]

/-- The check of each field in the words of the specification: `theme` is
"dark" or "light", `fontSize` a number in `[12, 20]`, `width` a number at least
200, `height` a number at least 120, `left` and `top` numbers at least 0,
`targetLang` a non-empty string. -/
def passesCheck (f : String) (v : JSVal) : Bool :=
  if f = "theme" then
    match v with
    | JSVal.str s => decide (s = "dark") || decide (s = "light")
    | _ => false
  else if f = "fontSize" then
    match v with
    | JSVal.num (JSNum.fin q) => decide (12 ≤ q) && decide (q ≤ 20)
    | _ => false
  else if f = "width" then
    match v with
    | JSVal.num (JSNum.fin q) => decide (200 ≤ q)
    | JSVal.num JSNum.posInf => true
    | _ => false
  else if f = "height" then
    match v with
    | JSVal.num (JSNum.fin q) => decide (120 ≤ q)
    | JSVal.num JSNum.posInf => true
    | _ => false
  else if f = "left" ∨ f = "top" then
    match v with
    | JSVal.num (JSNum.fin q) => decide (0 ≤ q)
    | JSVal.num JSNum.posInf => true
    | _ => false
  else if f = "targetLang" then
    match v with
    | JSVal.str s => decide (s ≠ "")
    | _ => false
  else false

/-- The fields that `validateSettings` fills from the defaults. -/
def filledFields : List String := ["theme", "fontSize", "width", "height", "left", "top"]

/-- The check of a field against a defaults record in the words of the
specification: `fontSize` is a number between the `minFont` and the `maxFont` of
the record, every other field has its fixed check. -/
def passesCheckWith (rt : Runtime) (d : Obj) (f : String) (v : JSVal) : Bool :=
  if f = "fontSize" then
    match v with
    | JSVal.num n =>
      JSNum.le (rt.toNumber (d.read "minFont")) n && JSNum.le n (rt.toNumber (d.read "maxFont"))
    | _ => false
  else passesCheck f v

/-- One field of a record filled from the defaults when the record lacks it. -/
def fillField (d : Obj) (o : Obj) (f : String) : Obj :=
  match o.get f with
  | none => o.set f (d.read f)
  | some _ => o

/-- A record with each of `theme`, `fontSize`, `width`, `height`, `left` and `top`
that is absent filled from the defaults. -/
def fillFromDefaults (o d : Obj) : Obj := filledFields.foldl (fillField d) o

/-- The presses that start a drag in the words of the specification: the primary
button, on a target that is not inside a button or a select. -/
def startsDrag : PointerEvent → Bool
  | PointerEvent.press e => decide (e.button = 0) && !e.targetInControl
  | PointerEvent.move _ => false
  | PointerEvent.release => false

/-! ## Lemmas on objects and on the checks -/

theorem Obj.get_set (o : Obj) (k : String) (v : JSVal) (k' : String) :
    (Obj.set o k v).get k' = if k = k' then some v else o.get k' := by
  induction o with
  | nil => simp [Obj.set, Obj.get]
  | cons p rest ih =>
    obtain ⟨k0, v0⟩ := p
    by_cases h0 : k0 = k
    · subst h0
      by_cases h1 : k0 = k' <;> simp [Obj.set, Obj.get, h1]
    · by_cases h1 : k0 = k'
      · subst h1
        have h2 : ¬ k = k0 := fun h => h0 h.symm
        simp [Obj.set, Obj.get, h0, h2]
      · simp [Obj.set, Obj.get, h0, h1, ih]

theorem Obj.get_ite_set (c : Prop) [Decidable c] (o : Obj) (k : String) (v : JSVal)
    (k' : String) :
    (if c then Obj.set o k v else o).get k' = if c ∧ k = k' then some v else o.get k' := by
  by_cases hc : c <;> simp [hc, Obj.get_set]

theorem Obj.get_ite_set_set (c : Prop) [Decidable c] (o : Obj) (k : String) (v w : JSVal)
    (k' : String) :
    (if c then Obj.set o k v else Obj.set o k w).get k' =
      if k = k' then some (if c then v else w) else o.get k' := by
  by_cases hc : c <;> simp [hc, Obj.get_set]

theorem isStr_theme_iff (v : JSVal) :
    (v.isStr "dark" = true ∨ v.isStr "light" = true) ↔ passesCheck "theme" v = true := by
  cases v <;> simp [JSVal.isStr, passesCheck]

theorem isNumGe_iff (v : JSVal) (b : ℚ) :
    isNumGe v (JSNum.fin b) = true ↔
      (v = JSVal.num JSNum.posInf ∨ ∃ q, v = JSVal.num (JSNum.fin q) ∧ b ≤ q) := by
  cases v with
  | num n => cases n <;> simp [isNumGe, JSVal.typeOf, JSNum.ge, JSNum.le]
  | _ => simp [isNumGe, JSVal.typeOf]

theorem isNumLe_iff (v : JSVal) (b : ℚ) :
    isNumLe v (JSNum.fin b) = true ↔
      (v = JSVal.num JSNum.negInf ∨ ∃ q, v = JSVal.num (JSNum.fin q) ∧ q ≤ b) := by
  cases v with
  | num n => cases n <;> simp [isNumLe, JSVal.typeOf, JSNum.le]
  | _ => simp [isNumLe, JSVal.typeOf]

theorem string_length_pos_iff (s : String) : 0 < s.length ↔ s ≠ "" := by
  rw [Nat.pos_iff_ne_zero, ne_eq, ne_eq, String.ext_iff]
  show ¬ s.data.length = 0 ↔ ¬ s.data = []
  rw [List.length_eq_zero]

theorem isNonEmptyStr_iff (v : JSVal) :
    isNonEmptyStr v = true ↔ ∃ s, v = JSVal.str s ∧ s ≠ "" := by
  cases v <;> simp [isNonEmptyStr, JSVal.typeOf, JSVal.strLength, string_length_pos_iff]

theorem validateStoredSettings_obj_get (ps : Obj) (k : String) :
    (validateStoredSettings (JSVal.obj ps)).get k =
      if isNonEmptyStr (ps.read "targetLang") = true ∧ "targetLang" = k then
        some (ps.read "targetLang")
      else if isNumGe (ps.read "top") (JSNum.fin 0) = true ∧ "top" = k then
        some (ps.read "top")
      else if isNumGe (ps.read "left") (JSNum.fin 0) = true ∧ "left" = k then
        some (ps.read "left")
      else if isNumGe (ps.read "height") (JSNum.fin 120) = true ∧ "height" = k then
        some (ps.read "height")
      else if isNumGe (ps.read "width") (JSNum.fin 200) = true ∧ "width" = k then
        some (ps.read "width")
      else if (isNumGe (ps.read "fontSize") (JSNum.fin 12) = true ∧
          isNumLe (ps.read "fontSize") (JSNum.fin 20) = true) ∧ "fontSize" = k then
        some (ps.read "fontSize")
      else if ((ps.read "theme").isStr "dark" = true ∨ (ps.read "theme").isStr "light" = true) ∧
          "theme" = k then
        some (ps.read "theme")
      else none := by
  simp only [validateStoredSettings, JSVal.truthy, JSVal.typeOf, JSVal.prop,
    DEFAULT_SETTINGS_minFont, DEFAULT_SETTINGS_maxFont, Bool.not_true, Bool.false_or,
    ne_eq, not_true_eq_false, decide_False, Bool.false_eq_true, if_false,
    Bool.or_eq_true, Bool.and_eq_true, Obj.get_ite_set, Obj.get]

theorem validateStoredSettings_not_obj (raw : JSVal) (h : ∀ ps, raw ≠ JSVal.obj ps) :
    validateStoredSettings raw = [] := by
  cases raw with
  | obj ps => exact absurd rfl (h ps)
  | _ => simp [validateStoredSettings, JSVal.truthy, JSVal.typeOf]

theorem passesCheck_undefined (f : String) : passesCheck f JSVal.undefined = false := by
  unfold passesCheck
  split_ifs <;> rfl

theorem passesCheck_read_iff (ps : Obj) (f : String) (v : JSVal) (c : Prop) [Decidable c]
    (hc : c ↔ passesCheck f (ps.read f) = true) :
    ((if c then some (ps.read f) else none) = some v ↔
      (ps.get f = some v ∧ passesCheck f v = true)) := by
  cases hg : ps.get f with
  | none =>
    have hr : ps.read f = JSVal.undefined := by simp [Obj.read, hg]
    rw [hr, passesCheck_undefined] at hc
    have hn : ¬ c := fun h => by simpa using hc.1 h
    simp [hn]
  | some w =>
    have hr : ps.read f = w := by simp [Obj.read, hg]
    rw [hr] at hc ⊢
    by_cases hcc : c
    · simp only [hcc, if_true, Option.some.injEq]
      constructor
      · intro h
        subst h
        exact ⟨rfl, hc.1 hcc⟩
      · intro h
        exact h.1
    · simp only [hcc, if_false]
      constructor
      · intro h
        cases h
      · intro h
        have h1 := h.1
        simp only [Option.some.injEq] at h1
        subst h1
        exact absurd (hc.2 h.2) hcc

theorem fontSize_check_iff (w : JSVal) :
    (isNumGe w (JSNum.fin 12) = true ∧ isNumLe w (JSNum.fin 20) = true) ↔
      passesCheck "fontSize" w = true := by
  cases w with
  | num n =>
    cases n <;> simp [isNumGe, isNumLe, JSVal.typeOf, JSNum.ge, JSNum.le, passesCheck]
  | _ => simp [isNumGe, JSVal.typeOf, passesCheck]

theorem width_check_iff (w : JSVal) :
    isNumGe w (JSNum.fin 200) = true ↔ passesCheck "width" w = true := by
  cases w with
  | num n => cases n <;> simp [isNumGe, JSVal.typeOf, JSNum.ge, JSNum.le, passesCheck]
  | _ => simp [isNumGe, JSVal.typeOf, passesCheck]

theorem height_check_iff (w : JSVal) :
    isNumGe w (JSNum.fin 120) = true ↔ passesCheck "height" w = true := by
  cases w with
  | num n => cases n <;> simp [isNumGe, JSVal.typeOf, JSNum.ge, JSNum.le, passesCheck]
  | _ => simp [isNumGe, JSVal.typeOf, passesCheck]

theorem left_check_iff (w : JSVal) :
    isNumGe w (JSNum.fin 0) = true ↔ passesCheck "left" w = true := by
  cases w with
  | num n => cases n <;> simp [isNumGe, JSVal.typeOf, JSNum.ge, JSNum.le, passesCheck]
  | _ => simp [isNumGe, JSVal.typeOf, passesCheck]

theorem top_check_iff (w : JSVal) :
    isNumGe w (JSNum.fin 0) = true ↔ passesCheck "top" w = true := by
  cases w with
  | num n => cases n <;> simp [isNumGe, JSVal.typeOf, JSNum.ge, JSNum.le, passesCheck]
  | _ => simp [isNumGe, JSVal.typeOf, passesCheck]

theorem targetLang_check_iff (w : JSVal) :
    isNonEmptyStr w = true ↔ passesCheck "targetLang" w = true := by
  cases w <;>
    simp [isNonEmptyStr, JSVal.typeOf, JSVal.strLength, passesCheck, string_length_pos_iff]

/-- C1. Sanitize-only validation: for every raw input and every recognized field
`f`, `validateStoredSettings raw` has the property `f` with value `v` exactly when
`raw` is an object whose property `f` is `v` and `v` passes the check of `f`; the
result has no property outside the recognized fields; a raw input that is not an
object gives the empty record. -/
theorem validateStoredSettings_sanitize_only (raw : JSVal) :
    (∀ f v, f ∈ recognizedFields →
      ((validateStoredSettings raw).get f = some v ↔
        ∃ ps : Obj, raw = JSVal.obj ps ∧ ps.get f = some v ∧ passesCheck f v = true)) ∧
    (∀ k, k ∉ recognizedFields → (validateStoredSettings raw).get k = none) ∧
    ((∀ ps, raw ≠ JSVal.obj ps) → validateStoredSettings raw = []) := by
  refine ⟨?_, ?_, validateStoredSettings_not_obj raw⟩
  · intro f v hf
    cases raw with
    | obj ps =>
      rw [validateStoredSettings_obj_get]
      simp only [recognizedFields, List.mem_cons, List.mem_singleton, List.not_mem_nil,
        or_false] at hf
      rcases hf with rfl | rfl | rfl | rfl | rfl | rfl | rfl
      · simpa using passesCheck_read_iff ps "theme" v _ (isStr_theme_iff _)
      · simpa using passesCheck_read_iff ps "fontSize" v _ (fontSize_check_iff _)
      · simpa using passesCheck_read_iff ps "width" v _ (width_check_iff _)
      · simpa using passesCheck_read_iff ps "height" v _ (height_check_iff _)
      · simpa using passesCheck_read_iff ps "left" v _ (left_check_iff _)
      · simpa using passesCheck_read_iff ps "top" v _ (top_check_iff _)
      · simpa using passesCheck_read_iff ps "targetLang" v _ (targetLang_check_iff _)
    | _ => simp [validateStoredSettings, JSVal.truthy, JSVal.typeOf, Obj.get]
  · intro k hk
    simp only [recognizedFields, List.mem_cons, List.mem_singleton, List.not_mem_nil,
      or_false, not_or] at hk
    obtain ⟨h1, h2, h3, h4, h5, h6, h7⟩ := hk
    cases raw with
    | obj ps =>
      rw [validateStoredSettings_obj_get]
      simp [Ne.symm h1, Ne.symm h2, Ne.symm h3, Ne.symm h4, Ne.symm h5, Ne.symm h6, Ne.symm h7]
    | _ => simp [validateStoredSettings, JSVal.truthy, JSVal.typeOf, Obj.get]


/-- C1 at the raw input `{ fontSize: 19, width: 50 }`: `fontSize` is kept. -/
theorem validateStoredSettings_sanitize_only_witness :
    ∃ ps : Obj,
      JSVal.obj [("fontSize", JSVal.num (JSNum.fin 19)), ("width", JSVal.num (JSNum.fin 50))] =
          JSVal.obj ps ∧
        ps.get "fontSize" = some (JSVal.num (JSNum.fin 19)) ∧
        passesCheck "fontSize" (JSVal.num (JSNum.fin 19)) = true :=
  ((validateStoredSettings_sanitize_only
      (JSVal.obj [("fontSize", JSVal.num (JSNum.fin 19)),
        ("width", JSVal.num (JSNum.fin 50))])).1
    "fontSize" (JSVal.num (JSNum.fin 19)) (by simp [recognizedFields])).1 rfl

theorem minWidth_eq : minWidth = 200 := by norm_num [minWidth, MIN_WIDTH]

theorem minHeight_eq : minHeight = 120 := by norm_num [minHeight, MIN_HEIGHT]

theorem validateSettings_obj_get (rt : Runtime) (ps d : Obj) (k : String) :
    (validateSettings rt (JSVal.obj ps) d).get k =
      if isNonEmptyStr (ps.read "targetLang") = true ∧ "targetLang" = k then
        some (ps.read "targetLang")
      else if "top" = k then
        some (if isNumGe (ps.read "top") (JSNum.fin 0) = true then ps.read "top"
          else d.read "top")
      else if "left" = k then
        some (if isNumGe (ps.read "left") (JSNum.fin 0) = true then ps.read "left"
          else d.read "left")
      else if "height" = k then
        some (if isNumGe (ps.read "height") (JSNum.fin 120) = true then ps.read "height"
          else d.read "height")
      else if "width" = k then
        some (if isNumGe (ps.read "width") (JSNum.fin 200) = true then ps.read "width"
          else d.read "width")
      else if "fontSize" = k then
        some (if isNumGe (ps.read "fontSize") (rt.toNumber (d.read "minFont")) = true ∧
            isNumLe (ps.read "fontSize") (rt.toNumber (d.read "maxFont")) = true
          then ps.read "fontSize" else d.read "fontSize")
      else if "theme" = k then
        some (if (ps.read "theme").isStr "dark" = true ∨ (ps.read "theme").isStr "light" = true
          then ps.read "theme" else d.read "theme")
      else none := by
  simp only [validateSettings, JSVal.truthy, JSVal.typeOf, JSVal.prop, minWidth_eq,
    minHeight_eq, Bool.not_true, Bool.false_or,
    ne_eq, not_true_eq_false, decide_False, Bool.false_eq_true, if_false,
    Bool.or_eq_true, Bool.and_eq_true, Obj.get_ite_set, Obj.get_ite_set_set, Obj.get]

theorem validateSettings_not_obj (rt : Runtime) (raw : JSVal) (d : Obj)
    (h : ∀ ps, raw ≠ JSVal.obj ps) : validateSettings rt raw d = d := by
  cases raw with
  | obj ps => exact absurd rfl (h ps)
  | _ => simp [validateSettings, JSVal.truthy, JSVal.typeOf]

theorem isStr_eq_true (v : JSVal) (s : String) (h : v.isStr s = true) : v = JSVal.str s := by
  cases v <;> simp_all [JSVal.isStr]

theorem isNumGe_num (v : JSVal) (lo : JSNum) (h : isNumGe v lo = true) :
    ∃ n, v = JSVal.num n ∧ JSNum.ge n lo = true := by
  cases v with
  | num n => exact ⟨n, rfl, by simpa [isNumGe, JSVal.typeOf] using h⟩
  | _ => simp [isNumGe, JSVal.typeOf] at h

theorem isNumGe_isNumLe_fin (v : JSVal) (lo hi : ℚ)
    (h : isNumGe v (JSNum.fin lo) = true ∧ isNumLe v (JSNum.fin hi) = true) :
    ∃ q, v = JSVal.num (JSNum.fin q) ∧ lo ≤ q ∧ q ≤ hi := by
  obtain ⟨h1, h2⟩ := h
  rcases (isNumGe_iff v lo).1 h1 with rfl | ⟨q, rfl, hq⟩
  · simp [isNumLe, JSVal.typeOf, JSNum.le] at h2
  · refine ⟨q, rfl, hq, ?_⟩
    simpa [isNumLe, JSVal.typeOf, JSNum.le] using h2

theorem ite_prop {α : Type} (c : Prop) [Decidable c] (a b : α) (P : α → Prop)
    (h1 : c → P a) (h2 : P b) : P (if c then a else b) := by
  split_ifs with h
  · exact h1 h
  · exact h2

/-- C2. Fill-with-defaults validation: for every raw input, the record
`validateSettings raw UI_DEFAULTS` defines `theme` as "dark" or "light", `fontSize`
as a finite number between `minFont` and `maxFont`, `width` as a number at least
200, `height` as a number at least 120, and `left` and `top` as numbers at least 0. -/
theorem validateSettings_defaults_within_bounds (rt : Runtime) (raw : JSVal) :
    (∃ s, (validateSettings rt raw UI_DEFAULTS).get "theme" = some (JSVal.str s) ∧
      (s = "dark" ∨ s = "light")) ∧
    (∃ q, (validateSettings rt raw UI_DEFAULTS).get "fontSize" = some (JSVal.num (JSNum.fin q)) ∧
      uiNum "minFont" ≤ q ∧ q ≤ uiNum "maxFont") ∧
    (∃ n, (validateSettings rt raw UI_DEFAULTS).get "width" = some (JSVal.num n) ∧
      JSNum.ge n (JSNum.fin 200) = true) ∧
    (∃ n, (validateSettings rt raw UI_DEFAULTS).get "height" = some (JSVal.num n) ∧
      JSNum.ge n (JSNum.fin 120) = true) ∧
    (∃ n, (validateSettings rt raw UI_DEFAULTS).get "left" = some (JSVal.num n) ∧
      JSNum.ge n (JSNum.fin 0) = true) ∧
    (∃ n, (validateSettings rt raw UI_DEFAULTS).get "top" = some (JSVal.num n) ∧
      JSNum.ge n (JSNum.fin 0) = true) := by
  have hmin : uiNum "minFont" = 12 := rfl
  have hmax : uiNum "maxFont" = 20 := rfl
  have hlo : rt.toNumber (UI_DEFAULTS.read "minFont") = JSNum.fin 12 := rfl
  have hhi : rt.toNumber (UI_DEFAULTS.read "maxFont") = JSNum.fin 20 := rfl
  by_cases hobj : ∃ ps, raw = JSVal.obj ps
  · obtain ⟨ps, rfl⟩ := hobj
    simp only [validateSettings_obj_get, hlo, hhi, hmin, hmax]
    refine ⟨?_, ?_, ?_, ?_, ?_, ?_⟩
    · have key := ite_prop
        ((Obj.read ps "theme").isStr "dark" = true ∨ (Obj.read ps "theme").isStr "light" = true)
        (Obj.read ps "theme") (UI_DEFAULTS.read "theme")
        (fun v => ∃ s, v = JSVal.str s ∧ (s = "dark" ∨ s = "light"))
        (fun hc => hc.elim (fun h => ⟨"dark", isStr_eq_true _ _ h, Or.inl rfl⟩)
          (fun h => ⟨"light", isStr_eq_true _ _ h, Or.inr rfl⟩))
        ⟨"dark", rfl, Or.inl rfl⟩
      simpa using key
    · have key := ite_prop
        (isNumGe (Obj.read ps "fontSize") (JSNum.fin 12) = true ∧
          isNumLe (Obj.read ps "fontSize") (JSNum.fin 20) = true)
        (Obj.read ps "fontSize") (UI_DEFAULTS.read "fontSize")
        (fun v => ∃ q, v = JSVal.num (JSNum.fin q) ∧ (12 : ℚ) ≤ q ∧ q ≤ 20)
        (fun hc => isNumGe_isNumLe_fin _ _ _ hc)
        ⟨14, rfl, by norm_num, by norm_num⟩
      simpa using key
    · have key := ite_prop (isNumGe (Obj.read ps "width") (JSNum.fin 200) = true)
        (Obj.read ps "width") (UI_DEFAULTS.read "width")
        (fun v => ∃ n, v = JSVal.num n ∧ JSNum.ge n (JSNum.fin 200) = true)
        (fun hc => isNumGe_num _ _ hc) ⟨_, rfl, rfl⟩
      simpa using key
    · have key := ite_prop (isNumGe (Obj.read ps "height") (JSNum.fin 120) = true)
        (Obj.read ps "height") (UI_DEFAULTS.read "height")
        (fun v => ∃ n, v = JSVal.num n ∧ JSNum.ge n (JSNum.fin 120) = true)
        (fun hc => isNumGe_num _ _ hc) ⟨_, rfl, rfl⟩
      simpa using key
    · have key := ite_prop (isNumGe (Obj.read ps "left") (JSNum.fin 0) = true)
        (Obj.read ps "left") (UI_DEFAULTS.read "left")
        (fun v => ∃ n, v = JSVal.num n ∧ JSNum.ge n (JSNum.fin 0) = true)
        (fun hc => isNumGe_num _ _ hc) ⟨_, rfl, rfl⟩
      simpa using key
    · have key := ite_prop (isNumGe (Obj.read ps "top") (JSNum.fin 0) = true)
        (Obj.read ps "top") (UI_DEFAULTS.read "top")
        (fun v => ∃ n, v = JSVal.num n ∧ JSNum.ge n (JSNum.fin 0) = true)
        (fun hc => isNumGe_num _ _ hc) ⟨_, rfl, rfl⟩
      simpa using key
  · have hno : ∀ ps, raw ≠ JSVal.obj ps := fun ps h => hobj ⟨ps, h⟩
    rw [validateSettings_not_obj rt raw _ hno, hmin, hmax]
    exact ⟨⟨"dark", rfl, Or.inl rfl⟩, ⟨14, rfl, by norm_num, by norm_num⟩,
      ⟨_, rfl, rfl⟩, ⟨_, rfl, rfl⟩, ⟨_, rfl, rfl⟩, ⟨_, rfl, rfl⟩⟩

/-- C10. For `lo ≤ hi`, `clamp v lo hi` is `lo` when `v < lo`, `hi` when `v > hi`,
and `v` otherwise. -/
theorem clamp_spec (v lo hi : ℚ) (h : lo ≤ hi) :
    (v < lo → clamp v lo hi = lo) ∧
    (hi < v → clamp v lo hi = hi) ∧
    (lo ≤ v → v ≤ hi → clamp v lo hi = v) := by
  unfold clamp
  refine ⟨fun h1 => ?_, fun h2 => ?_, fun h3 h4 => ?_⟩
  · rw [min_eq_left (le_trans h1.le h), max_eq_left h1.le]
  · rw [min_eq_right h2.le, max_eq_right h]
  · rw [min_eq_left h4, max_eq_right h3]

/-- C10 at `v = 5`, `lo = 10`, `hi = 690`. -/
theorem clamp_spec_witness :
    ((5 : ℚ) < 10 → clamp 5 10 690 = 10) ∧
    ((690 : ℚ) < 5 → clamp 5 10 690 = 690) ∧
    ((10 : ℚ) ≤ 5 → (5 : ℚ) ≤ 690 → clamp 5 10 690 = 5) :=
  clamp_spec 5 10 690 (by norm_num)

theorem clamp_bounds (v lo hi : ℚ) (h : lo ≤ hi) : lo ≤ clamp v lo hi ∧ clamp v lo hi ≤ hi := by
  unfold clamp
  exact ⟨le_max_left _ _, max_le h (min_le_right _ _)⟩

theorem clamp_ge_min (v lo hi : ℚ) : lo ≤ clamp v lo hi := by
  unfold clamp
  exact le_max_left _ _

theorem clamp_le_max (v lo hi : ℚ) : clamp v lo hi ≤ Max.max lo hi := by
  unfold clamp
  exact max_le_max le_rfl (min_le_right _ _)

/-- C9 fails as stated: with the raw input `null` and the defaults
`{ targetLang: "fr" }`, the output of `validateSettings` has `targetLang` equal to
"fr", taken from the defaults, while `raw.targetLang` is not a non-empty string. -/
theorem targetLang_defaulted_counterexample :
    (validateSettings rt0 JSVal.null [("targetLang", JSVal.str "fr")]).get "targetLang" =
        some (JSVal.str "fr") ∧
      isNonEmptyStr (JSVal.null.prop "targetLang") = false ∧
      JSVal.null.prop "targetLang" ≠ JSVal.str "fr" := by
  refine ⟨rfl, rfl, ?_⟩
  intro h
  cases h

/-- C9 amended. `validateStoredSettings` outputs `targetLang` only when `raw` is an
object whose `targetLang` is a non-empty string, and then with that value; so does
`validateSettings` whenever `raw` is an object or `defaults` has no `targetLang`;
for a raw input that is not an object `validateSettings` returns the defaults as
they are. -/
theorem targetLang_only_from_raw (rt : Runtime) (raw : JSVal) (defaults : Obj) (v : JSVal) :
    ((validateStoredSettings raw).get "targetLang" = some v →
      ∃ (ps : Obj) (s : String),
        raw = JSVal.obj ps ∧ ps.get "targetLang" = some v ∧ v = JSVal.str s ∧ s ≠ "") ∧
    (((∃ ps, raw = JSVal.obj ps) ∨ defaults.get "targetLang" = none) →
      (validateSettings rt raw defaults).get "targetLang" = some v →
      ∃ (ps : Obj) (s : String),
        raw = JSVal.obj ps ∧ ps.get "targetLang" = some v ∧ v = JSVal.str s ∧ s ≠ "") ∧
    ((∀ ps, raw ≠ JSVal.obj ps) → validateSettings rt raw defaults = defaults) := by
  have hread : ∀ (ps : Obj) (s : String), ps.read "targetLang" = JSVal.str s →
      ps.get "targetLang" = some (JSVal.str s) := by
    intro ps s h
    unfold Obj.read at h
    cases hg : ps.get "targetLang" with
    | none => rw [hg] at h; cases h
    | some w => rw [hg] at h; simpa using h
  have hobj : ∀ ps : Obj,
      (if isNonEmptyStr (ps.read "targetLang") = true then some (ps.read "targetLang") else none)
        = some v →
      ∃ (ps' : Obj) (s : String),
        JSVal.obj ps = JSVal.obj ps' ∧ ps'.get "targetLang" = some v ∧ v = JSVal.str s ∧ s ≠ "" := by
    intro ps h
    by_cases hc : isNonEmptyStr (ps.read "targetLang") = true
    · rw [if_pos hc] at h
      obtain ⟨s, hs, hne⟩ := (isNonEmptyStr_iff _).1 hc
      have hv : v = JSVal.str s := by
        rw [hs] at h
        exact (Option.some.inj h).symm
      exact ⟨ps, s, rfl, hv ▸ hread ps s hs, hv, hne⟩
    · rw [if_neg hc] at h
      cases h
  refine ⟨?_, ?_, validateSettings_not_obj rt raw defaults⟩
  · intro h
    cases raw with
    | obj ps =>
      rw [validateStoredSettings_obj_get] at h
      exact hobj ps (by simpa using h)
    | _ => simp [validateStoredSettings, JSVal.truthy, JSVal.typeOf, Obj.get] at h
  · intro hor h
    by_cases hraw : ∃ ps, raw = JSVal.obj ps
    · obtain ⟨ps, rfl⟩ := hraw
      rw [validateSettings_obj_get] at h
      exact hobj ps (by simpa using h)
    · have hno : ∀ ps, raw ≠ JSVal.obj ps := fun ps e => hraw ⟨ps, e⟩
      rw [validateSettings_not_obj rt raw defaults hno] at h
      rcases hor with hor | hor
      · exact absurd hor hraw
      · rw [hor] at h
        cases h

/-- C9 amended at the raw input `{ targetLang: "fr" }` with the shipped defaults. -/
theorem targetLang_only_from_raw_witness :
    ∃ (ps : Obj) (s : String),
      JSVal.obj [("targetLang", JSVal.str "fr")] = JSVal.obj ps ∧
        ps.get "targetLang" = some (JSVal.str "fr") ∧ JSVal.str "fr" = JSVal.str s ∧ s ≠ "" :=
  (targetLang_only_from_raw rt0 (JSVal.obj [("targetLang", JSVal.str "fr")]) UI_DEFAULTS
    (JSVal.str "fr")).2.1 (Or.inl ⟨_, rfl⟩) rfl

/-- C3 fails as stated: from size 320 by 180 at `left = 900` in a viewport 1000
wide with `safeMargin = 10`, a move of `dx = +500` applies the width 200, which
exceeds `1000 - 900 - 10 = 90`. -/
theorem resize_width_cap_counterexample :
    (ResizeHandler.onMouseMove uiConfig win0
        (ResizeHandler.onMouseDown ResizeHandler.init (pageOf 900 80 320 180) (pressAt 1200 250)).1
        (ResizeHandler.onMouseDown ResizeHandler.init (pageOf 900 80 320 180) (pressAt 1200 250)).2
        (pressAt 1700 250)).bubble.offsetWidth = 200 ∧
      ¬ ((200 : ℚ) ≤ win0.innerWidth - (pageOf 900 80 320 180).bubble.offsetLeft
          - uiConfig.safeMargin) ∧
      win0.innerWidth - (pageOf 900 80 320 180).bubble.offsetLeft - uiConfig.safeMargin = 90 := by
  refine ⟨?_, ?_, ?_⟩
  · with_unfolding_all rfl
  · norm_num [win0, pageOf, uiConfig]
  · norm_num [win0, pageOf, uiConfig]

/-- C3 amended. For every move while resizing, the applied width is
`clamp (startWidth + dx) 200 (innerWidth - offsetLeft - safeMargin)`: it is at least
200, it does not exceed `innerWidth - offsetLeft - safeMargin` whenever that cap is
at least 200, and it is 200 when the cap is below 200. -/
theorem resize_width_clamped (cfg : Config) (win : Viewport) (s : ResizeState) (pg : Page)
    (e : MouseEvent) (h : s.isResizing = true) :
    (ResizeHandler.onMouseMove cfg win s pg e).bubble.offsetWidth =
        clamp (s.startWidth + (e.clientX - s.startX)) 200
          (win.innerWidth - pg.bubble.offsetLeft - cfg.safeMargin) ∧
      200 ≤ (ResizeHandler.onMouseMove cfg win s pg e).bubble.offsetWidth ∧
      (200 ≤ win.innerWidth - pg.bubble.offsetLeft - cfg.safeMargin →
        (ResizeHandler.onMouseMove cfg win s pg e).bubble.offsetWidth ≤
          win.innerWidth - pg.bubble.offsetLeft - cfg.safeMargin) ∧
      (win.innerWidth - pg.bubble.offsetLeft - cfg.safeMargin < 200 →
        (ResizeHandler.onMouseMove cfg win s pg e).bubble.offsetWidth = 200) := by
  have hw : (ResizeHandler.onMouseMove cfg win s pg e).bubble.offsetWidth =
      clamp (s.startWidth + (e.clientX - s.startX)) 200
        (win.innerWidth - pg.bubble.offsetLeft - cfg.safeMargin) := by
    simp [ResizeHandler.onMouseMove, h, minWidth_eq]
  rw [hw]
  refine ⟨rfl, clamp_ge_min _ _ _, fun hcap => (clamp_bounds _ _ _ hcap).2, fun hcap => ?_⟩
  unfold clamp
  exact max_eq_left (le_trans (min_le_right _ _) hcap.le)

/-- C3 amended at the example of the specification: the applied width is 200. -/
theorem resize_width_clamped_witness :
    (ResizeHandler.onMouseMove uiConfig win0
        (ResizeHandler.onMouseDown ResizeHandler.init (pageOf 900 80 320 180) (pressAt 1200 250)).1
        (pageOf 900 80 320 180) (pressAt 1700 250)).bubble.offsetWidth = 200 :=
  (resize_width_clamped uiConfig win0
    (ResizeHandler.onMouseDown ResizeHandler.init (pageOf 900 80 320 180) (pressAt 1200 250)).1
    (pageOf 900 80 320 180) (pressAt 1700 250) rfl).2.2.2
    (by norm_num [win0, pageOf, uiConfig])

/-- C4. For every pointer move while dragging, the applied position is
`left = clamp (clientX - dragOffsetX) safeMargin (innerWidth - offsetWidth - safeMargin)`
and `top = clamp (clientY - dragOffsetY) safeTop (innerHeight - offsetHeight - safeMargin)`,
and each lies in its range whenever the range is not empty.  For the element at
`(100, 100)` of size 300 by 200 in the viewport 1000 by 800, pressed at `(120, 120)`:
a move to `(5, 5)` gives `left = 10` and a move to `(950, 750)` gives `left ≤ 690`. -/
theorem drag_move_clamped (cfg : Config) (win : Viewport) (s : DragState) (pg : Page)
    (e : MouseEvent) (h : s.isDragging = true) :
    (DragHandler.onMouseMove cfg win s pg e).bubble.offsetLeft =
        clamp (e.clientX - s.dragOffsetX) cfg.safeMargin
          (win.innerWidth - pg.bubble.offsetWidth - cfg.safeMargin) ∧
      (DragHandler.onMouseMove cfg win s pg e).bubble.offsetTop =
        clamp (e.clientY - s.dragOffsetY) cfg.safeTop
          (win.innerHeight - pg.bubble.offsetHeight - cfg.safeMargin) ∧
      (cfg.safeMargin ≤ win.innerWidth - pg.bubble.offsetWidth - cfg.safeMargin →
        cfg.safeMargin ≤ (DragHandler.onMouseMove cfg win s pg e).bubble.offsetLeft ∧
          (DragHandler.onMouseMove cfg win s pg e).bubble.offsetLeft ≤
            win.innerWidth - pg.bubble.offsetWidth - cfg.safeMargin) ∧
      (cfg.safeTop ≤ win.innerHeight - pg.bubble.offsetHeight - cfg.safeMargin →
        cfg.safeTop ≤ (DragHandler.onMouseMove cfg win s pg e).bubble.offsetTop ∧
          (DragHandler.onMouseMove cfg win s pg e).bubble.offsetTop ≤
            win.innerHeight - pg.bubble.offsetHeight - cfg.safeMargin) ∧
      (DragHandler.onMouseMove uiConfig win0
        (DragHandler.onMouseDown DragHandler.init (pageOf 100 100 300 200) (pressAt 120 120)).1
        (DragHandler.onMouseDown DragHandler.init (pageOf 100 100 300 200) (pressAt 120 120)).2
        (pressAt 5 5)).bubble.offsetLeft = 10 ∧
      (DragHandler.onMouseMove uiConfig win0
        (DragHandler.onMouseDown DragHandler.init (pageOf 100 100 300 200) (pressAt 120 120)).1
        (DragHandler.onMouseDown DragHandler.init (pageOf 100 100 300 200) (pressAt 120 120)).2
        (pressAt 950 750)).bubble.offsetLeft ≤ 690 := by
  have hl : (DragHandler.onMouseMove cfg win s pg e).bubble.offsetLeft =
      clamp (e.clientX - s.dragOffsetX) cfg.safeMargin
        (win.innerWidth - pg.bubble.offsetWidth - cfg.safeMargin) := by
    simp [DragHandler.onMouseMove, h]
  have ht : (DragHandler.onMouseMove cfg win s pg e).bubble.offsetTop =
      clamp (e.clientY - s.dragOffsetY) cfg.safeTop
        (win.innerHeight - pg.bubble.offsetHeight - cfg.safeMargin) := by
    simp [DragHandler.onMouseMove, h]
  rw [hl, ht]
  refine ⟨rfl, rfl, fun hx => clamp_bounds _ _ _ hx, fun hy => clamp_bounds _ _ _ hy, ?_, ?_⟩
  · with_unfolding_all rfl
  · with_unfolding_all decide

/-- C4 at the example press and the move to `(950, 750)`: `left` is in its range. -/
theorem drag_move_clamped_witness :
    uiConfig.safeMargin ≤
        (DragHandler.onMouseMove uiConfig win0
          (DragHandler.onMouseDown DragHandler.init (pageOf 100 100 300 200) (pressAt 120 120)).1
          (pageOf 100 100 300 200) (pressAt 950 750)).bubble.offsetLeft ∧
      (DragHandler.onMouseMove uiConfig win0
          (DragHandler.onMouseDown DragHandler.init (pageOf 100 100 300 200) (pressAt 120 120)).1
          (pageOf 100 100 300 200) (pressAt 950 750)).bubble.offsetLeft ≤
        win0.innerWidth - (pageOf 100 100 300 200).bubble.offsetWidth - uiConfig.safeMargin :=
  (drag_move_clamped uiConfig win0
    (DragHandler.onMouseDown DragHandler.init (pageOf 100 100 300 200) (pressAt 120 120)).1
    (pageOf 100 100 300 200) (pressAt 950 750) rfl).2.2.1
    (by norm_num [win0, pageOf, uiConfig])

/-- C5 fails as stated: an element at `left = 15` of width 970 in a viewport 1000
wide has its left edge within `snapDistance = 24` of the viewport's left, yet its
`left` becomes 20 and not `safeMargin = 10`, because the right-edge rule fires
after the left-edge rule. -/
theorem snapToEdges_left_rule_counterexample :
    (15 : ℚ) < uiConfig.snapDistance ∧
      (snapToEdges win0 (pageOf 15 100 970 200).bubble uiConfig).2.left = 20 ∧
      (snapToEdges win0 (pageOf 15 100 970 200).bubble uiConfig).2.left ≠ uiConfig.safeMargin := by
  refine ⟨by norm_num [uiConfig], by with_unfolding_all rfl, ?_⟩
  have h : (snapToEdges win0 (pageOf 15 100 970 200).bubble uiConfig).2.left = 20 := by
    with_unfolding_all rfl
  rw [h]
  norm_num [uiConfig]

/-- C5 amended. `snapToEdges` returns `left = innerWidth - width - safeMargin` when
`innerWidth - (left + width) < snapDistance`, otherwise `safeMargin` when
`left < snapDistance`, otherwise `left` unchanged; it returns
`top = innerHeight - height - safeMargin` when `innerHeight - (top + height) < snapDistance`,
otherwise `safeTop` when `top - safeTop < snapDistance`, otherwise `top` unchanged.
The horizontal result does not depend on the vertical inputs and conversely, and
the returned position is the one applied to the element.  An element at
`left = 15` of width 300 snaps to `left = 10`; one at `left = 500` of width 480 in
a viewport 1000 wide snaps so that its right edge is at 990. -/
theorem snapToEdges_rules (win : Viewport) (elem : Elem) (cfg : Config) :
    (snapToEdges win elem cfg).2.left =
        (if win.innerWidth - (elem.offsetLeft + elem.offsetWidth) < cfg.snapDistance then
          win.innerWidth - elem.offsetWidth - cfg.safeMargin
        else if elem.offsetLeft < cfg.snapDistance then cfg.safeMargin
        else elem.offsetLeft) ∧
      (snapToEdges win elem cfg).2.top =
        (if win.innerHeight - (elem.offsetTop + elem.offsetHeight) < cfg.snapDistance then
          win.innerHeight - elem.offsetHeight - cfg.safeMargin
        else if elem.offsetTop - cfg.safeTop < cfg.snapDistance then cfg.safeTop
        else elem.offsetTop) ∧
      (∀ (innerHeight top height safeTop : ℚ),
        (snapToEdges { win with innerHeight := innerHeight }
          { elem with offsetTop := top, offsetHeight := height }
          { cfg with safeTop := safeTop }).2.left = (snapToEdges win elem cfg).2.left) ∧
      (∀ (innerWidth left width : ℚ),
        (snapToEdges { win with innerWidth := innerWidth }
          { elem with offsetLeft := left, offsetWidth := width } cfg).2.top =
            (snapToEdges win elem cfg).2.top) ∧
      (snapToEdges win elem cfg).1 =
        { elem with
          offsetLeft := (snapToEdges win elem cfg).2.left
          offsetTop := (snapToEdges win elem cfg).2.top } ∧
      (snapToEdges win0 (pageOf 15 100 300 200).bubble uiConfig).2.left = 10 ∧
      (snapToEdges win0 (pageOf 500 100 480 200).bubble uiConfig).2.left + 480 = 990 := by
  refine ⟨?_, ?_, ?_, ?_, rfl, ?_, ?_⟩
  · simp only [snapToEdges]
  · simp only [snapToEdges]
  · intro innerHeight top height safeTop
    simp only [snapToEdges]
  · intro innerWidth left width
    simp only [snapToEdges]
  · with_unfolding_all rfl
  · have h : (snapToEdges win0 (pageOf 500 100 480 200).bubble uiConfig).2.left = 510 := by
      with_unfolding_all rfl
    rw [h]
    norm_num

/-- Two clicks on the full-screen button from a panel that is not full-screen:
full-screen is entered and left, `left` and `top` are as before, and the
measured width and height have each grown by twice the border. -/
theorem btnFullClick_twice (win : Viewport) (p : Panel) (h : p.isFullScreen = false) :
    ∃ p1 p2, btnFullClick win p = some p1 ∧ btnFullClick win p1 = some p2 ∧
      p1.isFullScreen = true ∧
      p2.isFullScreen = false ∧
      p2.page.bubble.offsetWidth = p.page.bubble.offsetWidth + 2 * themeBorderWidth ∧
      p2.page.bubble.offsetHeight = p.page.bubble.offsetHeight + 2 * themeBorderWidth ∧
      p2.page.bubble.offsetLeft = p.page.bubble.offsetLeft ∧
      p2.page.bubble.offsetTop = p.page.bubble.offsetTop := by
  simp [btnFullClick, offsetOfStyle, h]

/-- C8 at the default panel, measuring 322 by 182 at `(80, 80)`: after the
full-screen button is clicked twice the panel is not full-screen and is again
at `(80, 80)`, but it measures 324 by 184, so the width and height before the
round trip are not restored. -/
theorem fullscreen_round_trip_grows :
    ∃ p1 p2, btnFullClick win0 panel0 = some p1 ∧ btnFullClick win0 p1 = some p2 ∧
      p1.isFullScreen = true ∧
      p2.isFullScreen = false ∧
      panel0.page.bubble = (pageOf 80 80 322 182).bubble ∧
      p2.page.bubble = (pageOf 80 80 324 184).bubble ∧
      p2.page.bubble.offsetWidth ≠ panel0.page.bubble.offsetWidth ∧
      p2.page.bubble.offsetHeight ≠ panel0.page.bubble.offsetHeight := by
  obtain ⟨p1, p2, h1, h2, hf1, hf2, hw, hh, hl, ht⟩ := btnFullClick_twice win0 panel0 rfl
  have hw0 : panel0.page.bubble.offsetWidth = 322 := rfl
  have hh0 : panel0.page.bubble.offsetHeight = 182 := rfl
  have hl0 : panel0.page.bubble.offsetLeft = 80 := rfl
  have ht0 : panel0.page.bubble.offsetTop = 80 := rfl
  rw [hw0] at hw
  rw [hh0] at hh
  rw [hl0] at hl
  rw [ht0] at ht
  have hw' : p2.page.bubble.offsetWidth = 324 := by
    rw [hw]
    norm_num [themeBorderWidth]
  have hh' : p2.page.bubble.offsetHeight = 184 := by
    rw [hh]
    norm_num [themeBorderWidth]
  refine ⟨p1, p2, h1, h2, hf1, hf2, rfl, ?_, ?_, ?_⟩
  · cases hb : p2.page.bubble with
    | mk l t w ht' =>
      rw [hb] at hw' hh' hl ht
      simp only at hw' hh' hl ht
      subst hw' hh' hl ht
      rfl
  · rw [hw', hw0]
    norm_num
  · rw [hh', hh0]
    norm_num

/-- Under C5: with the left edge 12 from the viewport's left and the right edge
18 from its right, both within `snapDistance`, `snapToEdges` puts the element
at the right edge (`left = 20`) though the left edge is the nearer one. -/
theorem snapToEdges_farther_edge_wins :
    (snapToEdges win0 (pageOf 12 100 970 200).bubble uiConfig).2.left = 20 ∧
      win0.innerWidth - (12 + 970) = 18 := by
  refine ⟨by with_unfolding_all rfl, by norm_num [win0]⟩

theorem saveSettings_stored (w : World) (settings : Obj) :
    (saveSettings w settings).panel.stored = w.panel.stored := rfl

/-- No event changes the settings snapshot `stored` of an open panel. -/
theorem step_keeps_stored (win : Viewport) (w w' : World) (ev : Event)
    (h : step win w ev = some w') : w'.panel.stored = w.panel.stored := by
  cases ev with
  | headerMouseDown e =>
    simp only [step] at h
    split_ifs at h <;> simp only [Option.some.injEq] at h <;> subst h <;> rfl
  | resizerMouseDown e =>
    simp only [step] at h
    split_ifs at h <;> simp only [Option.some.injEq] at h <;> subst h <;> rfl
  | mouseMove e =>
    simp only [step, Option.some.injEq] at h
    subst h
    rfl
  | mouseUp =>
    simp only [step, Option.some.injEq] at h
    subst h
    split_ifs <;> (repeat' split) <;> rfl
  | langChange newLang =>
    simp only [step, Option.some.injEq] at h
    subst h
    rfl
  | clickPlus =>
    simp only [step, Option.some.injEq] at h
    subst h
    unfold btnPlusClick
    split_ifs <;> rfl
  | clickMinus =>
    simp only [step, Option.some.injEq] at h
    subst h
    unfold btnMinusClick
    split_ifs <;> rfl
  | clickTheme =>
    simp only [step, Option.some.injEq] at h
    subst h
    rfl
  | clickFull =>
    simp only [step] at h
    cases hb : btnFullClick win w.panel with
    | none => rw [hb] at h; cases h
    | some p =>
      rw [hb] at h
      simp only [Option.some.injEq] at h
      subst h
      unfold btnFullClick at hb
      split_ifs at hb
      · simp only [Option.some.injEq] at hb
        subst hb
        rfl
      · cases hg : w.panel.prevGeometry with
        | none => rw [hg] at hb; cases hb
        | some g =>
          rw [hg] at hb
          simp only [Option.some.injEq] at hb
          subst hb
          rfl

set_option maxRecDepth 20000 in
/-- C6 at a drag followed by a resize of the default panel.  The drag end
persists `left = 400` and `top = 300`; the resize end that follows persists
`width = 420` and `height = 230` merged into the settings read when the panel
opened, so that the persisted `left` and `top` are back at 80 while the bubble
stays at `(400, 300)`. -/
theorem resize_end_reverts_drag_position :
    ((showTranslatorBubble rt0 win0 "en" JSVal.undefined).bind fun w =>
        (run win0 w dragGesture).map fun w' =>
          (w'.storage.prop "left", w'.storage.prop "top")) =
      some (JSVal.num (JSNum.fin 400), JSVal.num (JSNum.fin 300)) ∧
    ((showTranslatorBubble rt0 win0 "en" JSVal.undefined).bind fun w =>
        (run win0 w (dragGesture ++ resizeGesture)).map fun w' =>
          (w'.storage.prop "left", w'.storage.prop "top")) =
      some (JSVal.num (JSNum.fin 80), JSVal.num (JSNum.fin 80)) ∧
    ((showTranslatorBubble rt0 win0 "en" JSVal.undefined).bind fun w =>
        (run win0 w (dragGesture ++ resizeGesture)).map fun w' =>
          (w'.storage.prop "width", w'.storage.prop "height",
            w'.panel.page.bubble.offsetLeft, w'.panel.page.bubble.offsetTop)) =
      some (JSVal.num (JSNum.fin 420), JSVal.num (JSNum.fin 230), 400, 300) := by
  refine ⟨?_, ?_, ?_⟩
  · with_unfolding_all rfl
  · with_unfolding_all rfl
  · with_unfolding_all rfl

/-- From a font size in range, one click keeps it within one step of the range,
and within the range when it started at least one step away from the bound
it moves towards. -/
theorem font_click_bounds (w : World) (h1 : uiNum "minFont" ≤ w.panel.fontSize)
    (h2 : w.panel.fontSize ≤ uiNum "maxFont") :
    uiNum "minFont" ≤ (btnPlusClick w).panel.fontSize ∧
      (btnPlusClick w).panel.fontSize < uiNum "maxFont" + uiNum "fontStep" ∧
      (w.panel.fontSize ≤ uiNum "maxFont" - uiNum "fontStep" →
        (btnPlusClick w).panel.fontSize ≤ uiNum "maxFont") ∧
      uiNum "minFont" - uiNum "fontStep" < (btnMinusClick w).panel.fontSize ∧
      (btnMinusClick w).panel.fontSize ≤ uiNum "maxFont" ∧
      (uiNum "minFont" + uiNum "fontStep" ≤ w.panel.fontSize →
        uiNum "minFont" ≤ (btnMinusClick w).panel.fontSize) := by
  have hmin : uiNum "minFont" = 12 := rfl
  have hmax : uiNum "maxFont" = 20 := rfl
  have hstep : uiNum "fontStep" = 2 := rfl
  rw [hmin] at h1
  rw [hmax] at h2
  simp only [hmin, hmax, hstep]
  have hp : (btnPlusClick w).panel.fontSize =
      if w.panel.fontSize < 20 then w.panel.fontSize + 2 else w.panel.fontSize := by
    unfold btnPlusClick
    rw [hmax, hstep]
    split_ifs <;> rfl
  have hm : (btnMinusClick w).panel.fontSize =
      if w.panel.fontSize > 12 then w.panel.fontSize - 2 else w.panel.fontSize := by
    unfold btnMinusClick
    rw [hmin, hstep]
    split_ifs <;> rfl
  rw [hp, hm]
  refine ⟨?_, ?_, ?_, ?_, ?_, ?_⟩
  · split_ifs <;> linarith
  · split_ifs <;> linarith
  · intro h3
    split_ifs <;> linarith
  · split_ifs <;> linarith
  · split_ifs <;> linarith
  · intro h3
    split_ifs <;> linarith

set_option maxRecDepth 20000 in
/-- C7 at the stored font size 19, which `validateSettings` accepts: one click on
the font-plus button sets the panel's font size to 21, above `maxFont = 20`, and
sends 21 for persistence. -/
theorem font_plus_overshoots_maxFont :
    (validateSettings rt0 storedFont19 UI_DEFAULTS).get "fontSize" =
        some (JSVal.num (JSNum.fin 19)) ∧
    ((showTranslatorBubble rt0 win0 "en" storedFont19).map fun w => w.panel.fontSize) =
        some 19 ∧
    ((showTranslatorBubble rt0 win0 "en" storedFont19).map fun w =>
        (btnPlusClick w).panel.fontSize) = some 21 ∧
    ((showTranslatorBubble rt0 win0 "en" storedFont19).map fun w =>
        (btnPlusClick w).sent.map fun o => o.get "fontSize") =
      some [some (JSVal.num (JSNum.fin 21))] ∧
    uiNum "maxFont" < 21 := by
  refine ⟨?_, ?_, ?_, ?_, ?_⟩
  · with_unfolding_all rfl
  · with_unfolding_all rfl
  · with_unfolding_all rfl
  · with_unfolding_all rfl
  · with_unfolding_all decide

/-- C11. Teardown is idempotent: `destroy` of either controller leaves it idle
with its listeners detached, so that no pointer event reaches it any more, and
a second `destroy` changes nothing; `closeBubble` leaves the bubble out of the
document and both controllers idle and detached, and a second `closeBubble`
gives the same state as the first. -/
theorem teardown_idempotent (cfg : Config) (win : Viewport) (hasCallback : Bool)
    (s : DragState) (r : ResizeState) (t : Tab) (pg : Page) (ev : PointerEvent) :
    ((DragHandler.destroy s).isDragging = false ∧ (DragHandler.destroy s).listening = false) ∧
    ((ResizeHandler.destroy r).isResizing = false ∧
      (ResizeHandler.destroy r).listening = false) ∧
    DragHandler.destroy (DragHandler.destroy s) = DragHandler.destroy s ∧
    ResizeHandler.destroy (ResizeHandler.destroy r) = ResizeHandler.destroy r ∧
    DragHandler.deliver cfg win hasCallback (DragHandler.destroy s) pg ev =
      (DragHandler.destroy s, pg, none) ∧
    ResizeHandler.deliver cfg win hasCallback (ResizeHandler.destroy r) pg ev =
      (ResizeHandler.destroy r, pg, none) ∧
    ((closeBubble t).bubbleInDocument = false ∧
      (closeBubble t).panel.drag.isDragging = false ∧
      (closeBubble t).panel.drag.listening = false ∧
      (closeBubble t).panel.resize.isResizing = false ∧
      (closeBubble t).panel.resize.listening = false) ∧
    closeBubble (closeBubble t) = closeBubble t := by
  refine ⟨⟨rfl, rfl⟩, ⟨rfl, rfl⟩, rfl, rfl, ?_, ?_, ⟨rfl, rfl, rfl, rfl, rfl⟩, rfl⟩
  · cases ev <;> simp [DragHandler.deliver, DragHandler.destroy]
  · cases ev <;> simp [ResizeHandler.deliver, ResizeHandler.destroy]

/-- C12. Drag state machine from Idle, the listeners being attached: the
controller is dragging after an event exactly when the event is a press of the
primary button outside every button and select, and such a press records the
offset of the pointer from the bubble's top-left corner; every other event
leaves the variables and the page as they were; no event from Idle calls
`onPositionChange` or moves the bubble. -/
theorem drag_idle_transitions (cfg : Config) (win : Viewport) (hasCallback : Bool)
    (s : DragState) (pg : Page) (ev : PointerEvent)
    (hidle : s.isDragging = false) (hl : s.listening = true) :
    ((DragHandler.deliver cfg win hasCallback s pg ev).1.isDragging = true ↔
        startsDrag ev = true) ∧
    (startsDrag ev = false →
        DragHandler.deliver cfg win hasCallback s pg ev = (s, pg, none)) ∧
    (DragHandler.deliver cfg win hasCallback s pg ev).2.2 = none ∧
    (DragHandler.deliver cfg win hasCallback s pg ev).2.1.bubble = pg.bubble ∧
    (∀ e, ev = PointerEvent.press e → startsDrag ev = true →
        (DragHandler.deliver cfg win hasCallback s pg ev).1.dragOffsetX =
            e.clientX - pg.bubble.offsetLeft ∧
          (DragHandler.deliver cfg win hasCallback s pg ev).1.dragOffsetY =
            e.clientY - pg.bubble.offsetTop) := by
  cases ev with
  | press e =>
    by_cases hb : e.button = 0
    · by_cases hc : e.targetInControl = true
      · simp [DragHandler.deliver, DragHandler.onMouseDown, startsDrag, hidle, hl, hb, hc]
      · simp only [Bool.not_eq_true] at hc
        refine ⟨?_, ?_, ?_, ?_, ?_⟩
        · simp [DragHandler.deliver, DragHandler.onMouseDown, startsDrag, hl, hb, hc]
        · simp [startsDrag, hb, hc]
        · simp [DragHandler.deliver, hl]
        · simp [DragHandler.deliver, DragHandler.onMouseDown, hl, hb, hc]
        · intro e' he _
          cases he
          simp [DragHandler.deliver, DragHandler.onMouseDown, hl, hb, hc]
    · simp [DragHandler.deliver, DragHandler.onMouseDown, startsDrag, hidle, hl, hb]
  | move e =>
    simp [DragHandler.deliver, DragHandler.onMouseMove, startsDrag, hidle, hl]
  | release =>
    simp [DragHandler.deliver, DragHandler.onMouseUp, startsDrag, hidle, hl]

/-- C12 at the fresh controller, the bubble at `(100, 100)` and a primary press
at `(120, 120)`: the controller is dragging afterwards. -/
theorem drag_idle_transitions_witness :
    (DragHandler.deliver uiConfig win0 true DragHandler.init (pageOf 100 100 300 200)
        (PointerEvent.press (pressAt 120 120))).1.isDragging = true :=
  (drag_idle_transitions uiConfig win0 true DragHandler.init (pageOf 100 100 300 200)
    (PointerEvent.press (pressAt 120 120)) rfl rfl).1.2 rfl

/-- C15. Edge-snap keeps the panel inside the drag bounds: when the drag ranges
are not empty and the bubble's position lies in them, the position returned by
`snapToEdges` lies in them again, and a release while dragging reports exactly
that position to `onPositionChange` and leaves the bubble there. -/
theorem snap_keeps_drag_bounds (cfg : Config) (win : Viewport) (s : DragState) (pg : Page)
    (hw : cfg.safeMargin ≤ win.innerWidth - pg.bubble.offsetWidth - cfg.safeMargin)
    (hh : cfg.safeTop ≤ win.innerHeight - pg.bubble.offsetHeight - cfg.safeMargin)
    (hl : cfg.safeMargin ≤ pg.bubble.offsetLeft ∧
      pg.bubble.offsetLeft ≤ win.innerWidth - pg.bubble.offsetWidth - cfg.safeMargin)
    (ht : cfg.safeTop ≤ pg.bubble.offsetTop ∧
      pg.bubble.offsetTop ≤ win.innerHeight - pg.bubble.offsetHeight - cfg.safeMargin) :
    (cfg.safeMargin ≤ (snapToEdges win pg.bubble cfg).2.left ∧
      (snapToEdges win pg.bubble cfg).2.left ≤
        win.innerWidth - pg.bubble.offsetWidth - cfg.safeMargin) ∧
    (cfg.safeTop ≤ (snapToEdges win pg.bubble cfg).2.top ∧
      (snapToEdges win pg.bubble cfg).2.top ≤
        win.innerHeight - pg.bubble.offsetHeight - cfg.safeMargin) ∧
    (s.isDragging = true →
      (DragHandler.onMouseUp cfg win true s pg).2.2 = some (snapToEdges win pg.bubble cfg).2 ∧
      (DragHandler.onMouseUp cfg win true s pg).2.1.bubble.offsetLeft =
        (snapToEdges win pg.bubble cfg).2.left ∧
      (DragHandler.onMouseUp cfg win true s pg).2.1.bubble.offsetTop =
        (snapToEdges win pg.bubble cfg).2.top ∧
      (DragHandler.onMouseUp cfg win true s pg).2.1.bubble.offsetWidth =
        pg.bubble.offsetWidth ∧
      (DragHandler.onMouseUp cfg win true s pg).2.1.bubble.offsetHeight =
        pg.bubble.offsetHeight) := by
  obtain ⟨hl1, hl2⟩ := hl
  obtain ⟨ht1, ht2⟩ := ht
  refine ⟨?_, ?_, ?_⟩
  · simp only [snapToEdges]
    constructor <;> split_ifs <;> linarith
  · simp only [snapToEdges]
    constructor <;> split_ifs <;> linarith
  · intro hd
    simp [DragHandler.onMouseUp, hd, snapToEdges]

/-- C15 at the bubble at `(15, 100)` of size 300 by 200 in the viewport 1000 by
800 with the shipped configuration: the snapped position is within the ranges. -/
theorem snap_keeps_drag_bounds_witness :
    (uiConfig.safeMargin ≤ (snapToEdges win0 (pageOf 15 100 300 200).bubble uiConfig).2.left ∧
      (snapToEdges win0 (pageOf 15 100 300 200).bubble uiConfig).2.left ≤
        win0.innerWidth - (pageOf 15 100 300 200).bubble.offsetWidth - uiConfig.safeMargin) ∧
    (uiConfig.safeTop ≤ (snapToEdges win0 (pageOf 15 100 300 200).bubble uiConfig).2.top ∧
      (snapToEdges win0 (pageOf 15 100 300 200).bubble uiConfig).2.top ≤
        win0.innerHeight - (pageOf 15 100 300 200).bubble.offsetHeight - uiConfig.safeMargin) :=
  ⟨(snap_keeps_drag_bounds uiConfig win0 DragHandler.init (pageOf 15 100 300 200)
      (by norm_num [win0, pageOf, uiConfig]) (by norm_num [win0, pageOf, uiConfig])
      (by norm_num [win0, pageOf, uiConfig]) (by norm_num [win0, pageOf, uiConfig])).1,
   (snap_keeps_drag_bounds uiConfig win0 DragHandler.init (pageOf 15 100 300 200)
      (by norm_num [win0, pageOf, uiConfig]) (by norm_num [win0, pageOf, uiConfig])
      (by norm_num [win0, pageOf, uiConfig]) (by norm_num [win0, pageOf, uiConfig])).2.1⟩

theorem Obj.read_singleton (k : String) (v : JSVal) : Obj.read [(k, v)] k = v := by
  simp [Obj.read, Obj.get]

theorem undefined_fallback (x y : JSVal) :
    (x = JSVal.undefined → y = JSVal.undefined) →
      (match x with
        | JSVal.undefined => y
        | w => w) = x := by
  intro h
  cases x with
  | undefined => exact h rfl
  | _ => rfl

theorem passesCheck_ne_undefined (f : String) (v : JSVal) (h : passesCheck f v = true) :
    v ≠ JSVal.undefined := by
  intro hv
  rw [hv, passesCheck_undefined] at h
  cases h

theorem fontSize_checkWith_iff (rt : Runtime) (d : Obj) (v : JSVal) :
    (isNumGe v (rt.toNumber (d.read "minFont")) = true ∧
        isNumLe v (rt.toNumber (d.read "maxFont")) = true) ↔
      passesCheckWith rt d "fontSize" v = true := by
  cases v <;> simp [isNumGe, isNumLe, JSVal.typeOf, JSNum.ge, passesCheckWith]

theorem validateSetting_eq_of (rt : Runtime) (k : String) (v : JSVal) (d : Obj)
    (c : Prop) [Decidable c]
    (hget : (validateSettings rt (JSVal.obj [(k, v)]) d).get k =
      some (if c then v else d.read k))
    (hc : c → v ≠ JSVal.undefined) :
    validateSetting rt k v d = (validateSettings rt (JSVal.obj [(k, v)]) d).read k ∧
      validateSetting rt k v d = if c then v else d.read k := by
  have hread : (validateSettings rt (JSVal.obj [(k, v)]) d).read k =
      if c then v else d.read k := by
    simp [Obj.read, hget]
  have hval : validateSetting rt k v d = (validateSettings rt (JSVal.obj [(k, v)]) d).read k := by
    unfold validateSetting
    simp only []
    apply undefined_fallback
    rw [hread]
    intro hu
    by_cases hcc : c
    · rw [if_pos hcc] at hu
      exact absurd hu (hc hcc)
    · rw [if_neg hcc] at hu
      exact hu
  exact ⟨hval, hval.trans hread⟩

theorem passesCheckWith_ne_undefined (rt : Runtime) (d : Obj) (f : String) (v : JSVal)
    (h : passesCheckWith rt d f v = true) : v ≠ JSVal.undefined := by
  intro hv
  subst hv
  unfold passesCheckWith at h
  split_ifs at h
  all_goals simp [passesCheck_undefined] at h

/-- C13. Single-field validation: for every key among `theme`, `fontSize`, `width`,
`height`, `left` and `top`, every value and every defaults record,
`validateSetting key value defaults` is the entry `key` of
`validateSettings { [key]: value } defaults`, which is the value when it passes
the check of the key and the entry `key` of the defaults otherwise. -/
theorem validateSetting_single_field (rt : Runtime) (k : String) (v : JSVal) (d : Obj)
    (hk : k ∈ filledFields) :
    validateSetting rt k v d = (validateSettings rt (JSVal.obj [(k, v)]) d).read k ∧
      validateSetting rt k v d = if passesCheckWith rt d k v = true then v else d.read k := by
  simp only [filledFields, List.mem_cons, List.mem_singleton, List.not_mem_nil,
    or_false] at hk
  rcases hk with rfl | rfl | rfl | rfl | rfl | rfl
  · refine validateSetting_eq_of rt "theme" v d _ ?_ (passesCheckWith_ne_undefined rt d _ v)
    have h1 : passesCheckWith rt d "theme" v = passesCheck "theme" v := by
      simp [passesCheckWith]
    rw [validateSettings_obj_get, h1]
    simp [Obj.read_singleton, isStr_theme_iff]
  · refine validateSetting_eq_of rt "fontSize" v d _ ?_ (passesCheckWith_ne_undefined rt d _ v)
    rw [validateSettings_obj_get]
    simp [Obj.read_singleton, fontSize_checkWith_iff]
  · refine validateSetting_eq_of rt "width" v d _ ?_ (passesCheckWith_ne_undefined rt d _ v)
    have h1 : passesCheckWith rt d "width" v = passesCheck "width" v := by
      simp [passesCheckWith]
    rw [validateSettings_obj_get, h1]
    simp [Obj.read_singleton, width_check_iff]
  · refine validateSetting_eq_of rt "height" v d _ ?_ (passesCheckWith_ne_undefined rt d _ v)
    have h1 : passesCheckWith rt d "height" v = passesCheck "height" v := by
      simp [passesCheckWith]
    rw [validateSettings_obj_get, h1]
    simp [Obj.read_singleton, height_check_iff]
  · refine validateSetting_eq_of rt "left" v d _ ?_ (passesCheckWith_ne_undefined rt d _ v)
    have h1 : passesCheckWith rt d "left" v = passesCheck "left" v := by
      simp [passesCheckWith]
    rw [validateSettings_obj_get, h1]
    simp [Obj.read_singleton, left_check_iff]
  · refine validateSetting_eq_of rt "top" v d _ ?_ (passesCheckWith_ne_undefined rt d _ v)
    have h1 : passesCheckWith rt d "top" v = passesCheck "top" v := by
      simp [passesCheckWith]
    rw [validateSettings_obj_get, h1]
    simp [Obj.read_singleton, top_check_iff]

/-- C13 at the key `width`, the value 50 and the shipped defaults. -/
theorem validateSetting_single_field_witness :
    validateSetting rt0 "width" (JSVal.num (JSNum.fin 50)) UI_DEFAULTS =
        (validateSettings rt0 (JSVal.obj [("width", JSVal.num (JSNum.fin 50))])
          UI_DEFAULTS).read "width" ∧
      validateSetting rt0 "width" (JSVal.num (JSNum.fin 50)) UI_DEFAULTS =
        if passesCheckWith rt0 UI_DEFAULTS "width" (JSVal.num (JSNum.fin 50)) = true then
          JSVal.num (JSNum.fin 50)
        else UI_DEFAULTS.read "width" :=
  validateSetting_single_field rt0 "width" (JSVal.num (JSNum.fin 50)) UI_DEFAULTS
    (by simp [filledFields])

theorem Obj.get_fillField (d o : Obj) (f k : String) :
    (fillField d o f).get k =
      if f = k then some ((o.get f).getD (d.read f)) else o.get k := by
  unfold fillField
  cases hg : o.get f with
  | none =>
    simp only [Obj.get_set, Option.getD_none]
  | some w =>
    by_cases hfk : f = k
    · subst hfk
      simp [hg]
    · simp [hfk]

theorem Obj.get_fillFromDefaults (o d : Obj) (k : String) :
    (fillFromDefaults o d).get k =
      if "top" = k then some ((o.get "top").getD (d.read "top"))
      else if "left" = k then some ((o.get "left").getD (d.read "left"))
      else if "height" = k then some ((o.get "height").getD (d.read "height"))
      else if "width" = k then some ((o.get "width").getD (d.read "width"))
      else if "fontSize" = k then some ((o.get "fontSize").getD (d.read "fontSize"))
      else if "theme" = k then some ((o.get "theme").getD (d.read "theme"))
      else o.get k := by
  simp [fillFromDefaults, filledFields, List.foldl, Obj.get_fillField]

theorem ite_some_none_getD (c : Prop) [Decidable c] (a b : JSVal) :
    (if c then some a else none).getD b = if c then a else b := by
  split_ifs <;> rfl

theorem validators_mirror_get (rt : Runtime) (ps : Obj) (k : String) :
    (validateSettings rt (JSVal.obj ps) UI_DEFAULTS).get k =
      (fillFromDefaults (validateStoredSettings (JSVal.obj ps)) UI_DEFAULTS).get k := by
  have hlo : rt.toNumber (UI_DEFAULTS.read "minFont") = JSNum.fin 12 := rfl
  have hhi : rt.toNumber (UI_DEFAULTS.read "maxFont") = JSNum.fin 20 := rfl
  rw [validateSettings_obj_get, Obj.get_fillFromDefaults, hlo, hhi]
  simp only [validateStoredSettings_obj_get]
  by_cases h1 : "top" = k
  · subst h1
    simp [ite_some_none_getD]
  by_cases h2 : "left" = k
  · subst h2
    simp [ite_some_none_getD]
  by_cases h3 : "height" = k
  · subst h3
    simp [ite_some_none_getD]
  by_cases h4 : "width" = k
  · subst h4
    simp [ite_some_none_getD]
  by_cases h5 : "fontSize" = k
  · subst h5
    simp [ite_some_none_getD]
  by_cases h6 : "theme" = k
  · subst h6
    simp [ite_some_none_getD]
  simp [h1, h2, h3, h4, h5, h6]

/-- C14. The background validator mirrors the panel validator: for every object
`raw`, `validateSettings raw UI_DEFAULTS` has at every key the entry of
`validateStoredSettings raw` with each absent field among `theme`, `fontSize`,
`width`, `height`, `left` and `top` filled from `UI_DEFAULTS`: what the background
validator keeps the panel validator keeps, what it drops the panel validator
replaces by the default, `targetLang` is treated alike, and the check of every
field against `UI_DEFAULTS` is its fixed check. -/
theorem validators_mirror (rt : Runtime) (ps : Obj) :
    (∀ k, (validateSettings rt (JSVal.obj ps) UI_DEFAULTS).get k =
        (fillFromDefaults (validateStoredSettings (JSVal.obj ps)) UI_DEFAULTS).get k) ∧
    (∀ f v, (validateStoredSettings (JSVal.obj ps)).get f = some v →
        (validateSettings rt (JSVal.obj ps) UI_DEFAULTS).get f = some v) ∧
    (∀ f, f ∈ filledFields → (validateStoredSettings (JSVal.obj ps)).get f = none →
        (validateSettings rt (JSVal.obj ps) UI_DEFAULTS).get f = some (UI_DEFAULTS.read f)) ∧
    (validateSettings rt (JSVal.obj ps) UI_DEFAULTS).get "targetLang" =
        (validateStoredSettings (JSVal.obj ps)).get "targetLang" ∧
    (∀ f v, passesCheckWith rt UI_DEFAULTS f v = passesCheck f v) := by
  refine ⟨validators_mirror_get rt ps, ?_, ?_, ?_, ?_⟩
  · intro f v h
    rw [validators_mirror_get, Obj.get_fillFromDefaults]
    split_ifs with h1 h2 h3 h4 h5 h6
    · subst h1
      simp [h]
    · subst h2
      simp [h]
    · subst h3
      simp [h]
    · subst h4
      simp [h]
    · subst h5
      simp [h]
    · subst h6
      simp [h]
    · exact h
  · intro f hf h
    rw [validators_mirror_get, Obj.get_fillFromDefaults]
    simp only [filledFields, List.mem_cons, List.mem_singleton, List.not_mem_nil,
      or_false] at hf
    rcases hf with rfl | rfl | rfl | rfl | rfl | rfl <;> simp [h]
  · rw [validators_mirror_get, Obj.get_fillFromDefaults]
    simp
  · intro f v
    have hlo : rt.toNumber (UI_DEFAULTS.read "minFont") = JSNum.fin 12 := rfl
    have hhi : rt.toNumber (UI_DEFAULTS.read "maxFont") = JSNum.fin 20 := rfl
    unfold passesCheckWith
    rw [hlo, hhi]
    by_cases hf : f = "fontSize"
    · subst hf
      cases v with
      | num n => cases n <;> simp [passesCheck, JSNum.le]
      | _ => simp [passesCheck]
    · simp [hf]

end UniversalTranslator
